import Mathlib

/-!
Verification of the docker-claude-code job-orchestration pipeline.

JavaScript strings are modelled as `String` (with character lists `List Char`
for lemmas), machine behaviour of the external collaborators (object storage,
git, the agent SDK, the summarisation LLM, the status database) is supplied
through explicit environment records, and the orchestrator pipelines of
`src/orchestrator.ts` (the MinIO-storage variant) and
`unified-worker/src/orchestrator.ts` (the local-volume variant) are embedded as
pure functions from a request and an environment to the emitted event trace
plus the side-effect record.
-/

namespace DockerClaudeCode

/-- Character-list test: is `p` a prefix of `s`?  Models `String.startsWith` /
`str.replace` at position 0 from the TypeScript sources. -/
def isPre : List Char → List Char → Bool
  | [], _ => true
  | _ :: _, [] => false
  | a :: as, b :: bs => a = b && isPre as bs

/-- Substring test on character lists; models JavaScript
`String.prototype.includes` as used by `Orchestrator.getErrorCode`. -/
def containsSub (needle : List Char) : List Char → Bool
  | [] => needle.isEmpty
  | c :: t => isPre needle (c :: t) || containsSub needle t

/-- `hay.includes(needle)` on `String`s. -/
def includesStr (hay needle : String) : Bool :=
  containsSub needle.data hay.data

/-- String concatenation through character lists (definitionally transparent
`++` on the underlying data, used so that lemmas about messages built at run
time reduce). -/
def strCat (a b : String) : String := ⟨a.data ++ b.data⟩

/-- `path.join(a, b)` for the simple two-component joins the orchestrators
perform (no normalisation is needed for the paths the code builds). -/
def pathJoin (a b : String) : String := ⟨a.data ++ '/' :: b.data⟩

/-- ASCII whitespace, for the model of `String.prototype.trim`. -/
def isWsChar (c : Char) : Bool := c = ' ' || c = '\t' || c = '\n' || c = '\r'

/-- Model of `s.trim()`. -/
def trimStr (s : String) : String :=
  ⟨((s.data.dropWhile isWsChar).reverse.dropWhile isWsChar).reverse⟩

/-- `!s || s.trim() === ''` — the blank-field test of `validateRequest`
(a missing field is modelled as the empty string, which is also blank). -/
def isBlank (s : String) : Bool := trimStr s = ""

/-- `Orchestrator.getErrorCode` (identical in both orchestrator variants):
substring heuristics over the error message, checked in source order. -/
def getErrorCode (msg : String) : String :=
  if includesStr msg "Session not found" then "session_not_found"
  else if includesStr msg "token" then "auth_error"
  else if includesStr msg "repository" || includesStr msg "not found" then "repo_not_found"
  else if includesStr msg "Cannot provide both" then "invalid_request"
  else "internal_error"

/-- Result of `JSON.parse` on the authentication string, restricted to the two
shapes `extractApiKey` inspects.  `JSON.parse` is an external library
primitive, so its outcome on the opaque credential string is supplied by the
environment (`none` models a parse failure). -/
structure ParsedAuth where
  oauthAccessToken : Option String
  apiKey : Option String
deriving DecidableEq

/-- `Orchestrator.extractApiKey`: OAuth access token, then plain `apiKey`
field, else the raw string when it looks like an API key (`sk-ant-` prefix). -/
def extractApiKey (auth : String) (parsed : Option ParsedAuth) : Option String :=
  match parsed with
  | some p =>
    match p.oauthAccessToken with
    | some t => some t
    | none => p.apiKey
  | none => if isPre "sk-ant-".data auth.data then some auth else none

/-- `[a-z0-9]` — the characters the branch-name cleaner keeps (input is
already lowercased when this is applied). -/
def isCleanChar (c : Char) : Bool :=
  ('a' ≤ c && c ≤ 'z') || ('0' ≤ c && c ≤ '9')

/-- Replace every run of non-`[a-z0-9]` characters by a single hyphen
(the `/[^a-z0-9]+/g → '-'` step of `generateBranchName`); the flag records
whether the previous character was inside such a run. -/
def replaceRunsAux : Bool → List Char → List Char
  | _, [] => []
  | inRun, c :: rest =>
    if isCleanChar c then c :: replaceRunsAux false rest
    else if inRun then replaceRunsAux true rest
    else '-' :: replaceRunsAux true rest

def replaceRuns (l : List Char) : List Char := replaceRunsAux false l

/-- Remove a leading and a trailing run of hyphens (`/^-+|-+$/g → ''`). -/
def trimHyphens (l : List Char) : List Char :=
  ((l.dropWhile (· = '-')).reverse.dropWhile (· = '-')).reverse

/-- The cleaning applied to the session name by `generateBranchName`
before truncation: lowercase, collapse non-alphanumeric runs to single
hyphens, strip leading/trailing hyphens. -/
def cleanName (name : List Char) : List Char :=
  trimHyphens (replaceRuns (name.map Char.toLower))

/-- `cleanSessionName` from `llmHelper.ts`: the cleaned name truncated to 50
characters. -/
def cleanSessionName (name : List Char) : List Char :=
  (cleanName name).take 50

/-- `generateBranchName` from `src/utils/llmHelper.ts`, on character lists.
Builds `webedt/{clean}-{id}` and, when that exceeds 100 characters, retruncates
the cleaned name to 100 minus the length of the fixed skeleton (`webedt`, the
slash, two hyphens and the id) characters (JavaScript's
`substring` clamps a negative bound to 0, as `Nat` subtraction does here). -/
def generateBranchName (sessionName generatedId : List Char) : List Char :=
  let clean := cleanSessionName sessionName
  let branchName := "webedt/".data ++ clean ++ '-' :: generatedId
  if branchName.length > 100 then
    let maxLen := 100 - ("webedt/--".data ++ generatedId).length
    "webedt/".data ++ clean.take maxLen ++ '-' :: generatedId
  else branchName

/-! ## Data model: requests, session metadata, events -/

/-- `ExecuteRequest.github` from `types.ts`. -/
structure GithubSpec where
  repoUrl : String
  branch : Option String := none
  directory : Option String := none
  accessToken : Option String := none
deriving DecidableEq

/-- `ExecuteRequest.database` from `types.ts`. -/
structure DbSpec where
  sessionId : String
  accessToken : String
deriving DecidableEq

/-- `ExecuteRequest` (the fields the orchestrator pipeline reads;
`codingAssistantAuthentication` is the credential field of the MinIO variant,
named `codingAssistantAccessToken` in the unified-worker variant). -/
structure Request where
  userRequest : String
  codingAssistantProvider : String
  codingAssistantAuthentication : String
  resumeSessionId : Option String := none
  github : Option GithubSpec := none
  autoCommit : Option Bool := none
  database : Option DbSpec := none
deriving DecidableEq

/-- `SessionMetadata.github`. -/
structure GithubMeta where
  repoUrl : String
  branch : String
  branchName : Option String := none
  clonedPath : String
deriving DecidableEq

/-- `SessionMetadata` (timestamps are abstracted away: no claim concerns
them). -/
structure SessionMetadata where
  sessionId : String
  provider : String
  sessionName : Option String := none
  providerSessionId : Option String := none
  github : Option GithubMeta := none
deriving DecidableEq

/-- The SSE event stream's tagged union (`SSEEvent` shapes actually emitted
by the orchestrators; timestamps and elapsed durations are real-time values
and are abstracted away).  `commitProgress` carries the stage tag, the
human-readable message, the optional `commitMessage` field and the optional
`commitHash` field. -/
inductive Ev where
  | connected (sessionId : String) (resuming : Bool)
  | sessionNamed (name : String) (branchName : Option String)
  | message (msg : String)
  | pullProgress (msg : String)
  | branchCreated (name : String)
  | commitProgress (stage : String) (msg : String)
      (commitMessage : Option String) (commitHash : Option String)
  | assistant (payload : Nat)
  | completed
  | error (msg : String) (code : String)
deriving DecidableEq

/-- Terminal events of the stream: `completed` or `error`. -/
def isTerminal : Ev → Bool
  | .completed => true
  | .error _ _ => true
  | _ => false

/-- Commit-progress events (the auto-commit stage chain's reports). -/
def isCommitProgress : Ev → Bool
  | .commitProgress _ _ _ _ => true
  | _ => false

/-- Error events. -/
def isErrorEv : Ev → Bool
  | .error _ _ => true
  | _ => false

/-! ## Request validation (`Orchestrator.validateRequest`) -/

/-- `ProviderFactory.getSupportedProviders()` (the variant with the Codex
placeholder provider). -/
def supportedProviders : List String := ["claude-code", "codex", "cursor"]

/-- `providerName.toLowerCase().trim()`. -/
def normalizeProvider (p : String) : String :=
  trimStr ⟨p.data.map Char.toLower⟩

/-- `ProviderFactory.isProviderSupported`. -/
def isProviderSupported (p : String) : Bool :=
  supportedProviders.contains (normalizeProvider p)

/-- The validation error message for a request carrying both a repository
spec and a resume id. -/
def bothMsg : String :=
  "Cannot provide both \"github\" and \"resumeSessionId\". When resuming a session, the repository is already available in the session workspace."

/-- `Orchestrator.validateRequest`: returns the message of the first failing
check (the function throws in the source), or `none` when the request is
valid.  Checks appear in source order. -/
def validateRequest (r : Request) : Option String :=
  if isBlank r.userRequest then some "userRequest is required"
  else if isBlank r.codingAssistantProvider then some "codingAssistantProvider is required"
  else if isBlank r.codingAssistantAuthentication then some "codingAssistantAuthentication is required"
  else if !isProviderSupported r.codingAssistantProvider then
    some (strCat "Unsupported provider: " r.codingAssistantProvider)
  else if r.github.isSome && r.resumeSessionId.isSome then some bothMsg
  else if (match r.github with | some g => isBlank g.repoUrl | none => false) then
    some "github.repoUrl is required when github integration is enabled"
  else match r.database with
    | some d =>
      if isBlank d.sessionId then
        some "database.sessionId is required when database persistence is enabled"
      else if isBlank d.accessToken then
        some "database.accessToken is required when database persistence is enabled"
      else none
    | none => none

/-! ## The version-control client (`githubClient.ts`) -/

/-- Behaviour of the external git primitives for one job: whether the target
directory already holds a repository, whether the clone / checkout / pull
operations succeed, what messages their failures carry, which branch the
repository's HEAD actually points at (`defaultBranch` is the branch a clone
without `--branch` checks out, `currentBranch` is `status().current` of an
existing checkout). -/
structure GitEnv where
  repoExistsAtTarget : Bool
  cloneOk : Bool := true
  cloneErrMsg : String := "clone failed"
  defaultBranch : String := "main"
  currentBranch : Option String := none
  checkoutOk : Bool := true
  checkoutErrMsg : String := "checkout failed"
  pullOk : Bool := true
  pullErrMsg : String := "pull failed"
deriving DecidableEq

/-- `GitHubPullResult`. -/
structure PullResult where
  targetPath : String
  wasCloned : Bool
  branch : String
deriving DecidableEq

/-- JavaScript `a || d` on an optional string (empty string is falsy). -/
def orDefault (b : Option String) (d : String) : String :=
  match b with
  | some s => if s = "" then d else s
  | none => d

/-- Modelled from the spec: the branch the external clone primitive actually
resolves and checks out (§6 `VersionControl.clone`): the requested branch when
one is given, else the repository's default branch, whatever it is named.
This is a fact about the external git world; `cloneRepository` below (from the
source) does not consult it. -/
def gitCheckedOutBranch (g : GitEnv) (branch : Option String) : String :=
  orDefault branch g.defaultBranch

/-- `GitHubClient.extractRepoName`: the regex match of the last non-empty
path segment with a single trailing `.git` stripped; throws on a URL with no
usable segment. -/
def extractRepoName (repoUrl : String) : Except String String :=
  match (repoUrl.data.splitOn '/').getLast? with
  | none => .error (strCat "Invalid repository URL: " repoUrl)
  | some seg =>
    if seg.isEmpty ∨ ¬ repoUrl.data.contains '/' then
      .error (strCat "Invalid repository URL: " repoUrl)
    else if 4 < seg.length ∧ isPre ".git".data.reverse seg.reverse then
      .ok ⟨seg.take (seg.length - 4)⟩
    else .ok ⟨seg⟩

/-- `GitHubClient.injectToken`. -/
def injectToken (repoUrl token : String) : String :=
  if isPre "https://github.com/".data repoUrl.data then
    ⟨"https://".data ++ token.data ++ "@github.com/".data ++ repoUrl.data.drop 19⟩
  else repoUrl

/-- `GitHubClient.cloneRepository`: passes `--branch` only when a branch is
requested, and reports `branch || 'main'` as the resolved branch — it never
consults the repository's actual default branch. -/
def cloneRepository (g : GitEnv) (repoUrl targetPath : String)
    (branch accessToken : Option String) : Except String PullResult :=
  let _cloneUrl := match accessToken with
    | some t => injectToken repoUrl t
    | none => repoUrl
  if g.cloneOk then
    .ok { targetPath := targetPath, wasCloned := true, branch := orDefault branch "main" }
  else .error g.cloneErrMsg

/-- `GitHubClient.pullExisting`: checks out the requested branch when it is
given and differs from the current one, pulls, and reports
`branch || status.current || 'main'`. -/
def pullExisting (g : GitEnv) (targetPath : String) (branch : Option String) :
    Except String PullResult :=
  let actual := orDefault branch (orDefault g.currentBranch "main")
  let needsCheckout : Bool := match branch with
    | some b => b != "" && g.currentBranch != some b
    | none => false
  if needsCheckout && !g.checkoutOk then .error g.checkoutErrMsg
  else if !g.pullOk then .error g.pullErrMsg
  else .ok { targetPath := targetPath, wasCloned := false, branch := actual }

/-- `GitHubClient.pullRepository`: resolve the target directory
(`directory || extractRepoName(url)`), then pull if it already exists, else
clone. -/
def pullRepository (g : GitEnv) (repoUrl : String)
    (branch directory accessToken : Option String) (workspaceRoot : String) :
    Except String PullResult :=
  let name : Except String String := match directory with
    | some d => if d = "" then extractRepoName repoUrl else .ok d
    | none => extractRepoName repoUrl
  match name with
  | .error e => .error e
  | .ok repoName =>
    let targetPath := pathJoin workspaceRoot repoName
    if g.repoExistsAtTarget then pullExisting g targetPath branch
    else cloneRepository g repoUrl targetPath branch accessToken

/-! ## LLM helpers (`llmHelper.ts`) -/

/-- `LLMHelper.generateCommitMessage`: the summarisation call's failure is
caught internally and replaced by the fixed fallback message — this function
never throws. -/
def generateCommitMessage (llmOk : Bool) (llmMsg : String) : String :=
  if llmOk then llmMsg else "chore: auto-commit changes"

/-- `LLMHelper.generateSessionName`'s fallback on summarisation failure:
the user request truncated to 60 characters and trimmed (the function never
throws). -/
def fallbackSessionName (userRequest : String) : String :=
  trimStr ⟨userRequest.data.take 60⟩

/-- `sessionId.split('-')[0]` — the generated-id argument passed to
`generateBranchName`. -/
def idFirstSegment (sid : String) : String :=
  ⟨sid.data.takeWhile (· ≠ '-')⟩

/-! ## The MinIO-storage orchestrator (`src/orchestrator.ts`, one job) -/

/-- Behaviour of the external collaborators during one job of the
MinIO-storage orchestrator.  Failure flags are `true` when the corresponding
external call succeeds. -/
structure Env1 where
  /-- The fresh uuid used when no resume id is given. -/
  newSessionId : String := "new-session"
  /-- Modelled from the spec: `DurableStorage.download(sessionId) -> existed`
  (§6); the primitive (`sessionStorage.downloadSession`) populates the local
  workspace directory and reports whether the session existed in storage. -/
  downloadOk : Bool := true
  sessionExisted : Bool := false
  /-- `sessionStorage.getMetadata` result when the session existed. -/
  storedMeta : Option SessionMetadata := none
  /-- `JSON.parse` outcome on the credential string. -/
  authParsed : Option ParsedAuth := none
  /-- `generateSessionName`'s summarisation call succeeds. -/
  nameGenOk : Bool := true
  generatedName : String := "session"
  git : GitEnv := { repoExistsAtTarget := false }
  /-- `branchExists`/`createBranch` do not throw. -/
  branchOpsOk : Bool := true
  branchExists : Bool := false
  /-- `dbClient.updateSession(status: active)` succeeds (this await is not
  guarded in the source). -/
  dbActiveOk : Bool := true
  providerOk : Bool := true
  providerErrMsg : String := "provider execution failed"
  /-- Payloads streamed by the agent capability before it returns or throws. -/
  providerEvents : List Nat := []
  hasChangesOk : Bool := true
  hasChanges : Bool := false
  statusOk : Bool := true
  diffOk : Bool := true
  /-- The commit-message summarisation call succeeds. -/
  llmCommitOk : Bool := true
  llmCommitMsg : String := "feat: change"
  commitOk : Bool := true
  commitHash : String := "abc1234"
  uploadOk : Bool := true
  /-- `dbClient.updateSession(status: completed)` succeeds (this await is not
  guarded in the source). -/
  dbCompletedOk : Bool := true
  /-- The best-effort upload on the error path succeeds. -/
  errorUploadOk : Bool := true
deriving DecidableEq

/-- Side effects observed during one job. -/
structure Effects where
  downloaded : Bool := false
  workspaceCreated : Bool := false
  pulled : Bool := false
  providerInvoked : Bool := false
  uploaded : Bool := false
  workspaceExists : Bool := false
deriving DecidableEq

/-- Mutable state threaded through the pipeline. -/
structure St where
  metadata : SessionMetadata
  workspacePath : String
  sessionName : Option String := none
  branchName : Option String := none
  eff : Effects := {}
deriving DecidableEq

/-- One pipeline stage's outcome: events emitted so far, the state, and the
message of the exception it raised, if any. -/
structure StepG (σ : Type) where
  evs : List Ev
  st : σ
  err : Option String
deriving DecidableEq

abbrev Step := StepG St

/-- Sequencing of stages in an orchestrator's `try` block: a raised
exception skips every later stage (it is handled once, by the single `catch`
at the end of `execute`). -/
def seqS {σ : Type} (f g : σ → StepG σ) : σ → StepG σ := fun s =>
  let a := f s
  match a.err with
  | some _ => a
  | none =>
    let b := g a.st
    { evs := a.evs ++ b.evs, st := b.st, err := b.err }

/-- The local workspace directory for a session id
(`path.join(tmpDir, 'session-' + sessionId)`, `tmpDir = '/tmp'`). -/
def sessionRoot (sid : String) : String := strCat "/tmp/session-" sid

/-- The session id of the job: the resume id when present, else the fresh
uuid. -/
def sessionIdOf (r : Request) (e : Env1) : String :=
  match r.resumeSessionId with
  | some s => s
  | none => e.newSessionId

/-- Default metadata constructed for a new session. -/
def freshMeta (sid : String) (r : Request) : SessionMetadata :=
  { sessionId := sid, provider := r.codingAssistantProvider }

/-- `targetPath.replace(workspacePath + '/', '')` for the paths the pipeline
builds (the occurrence is the leading one). -/
def stripPre (p s : String) : String :=
  if isPre p.data s.data then ⟨s.data.drop p.data.length⟩ else s

def initSt (r : Request) (sid : String) : St :=
  { metadata := freshMeta sid r, workspacePath := sessionRoot sid }

/-- Step 1: `validateRequest`. -/
def stValidate (r : Request) : St → Step := fun s =>
  { evs := [], st := s, err := validateRequest r }

/-- Step 2: `sessionStorage.downloadSession` — creates/populates the local
workspace directory and reports existence. -/
def stDownload (e : Env1) : St → Step := fun s =>
  if e.downloadOk then
    { evs := []
      st := { s with eff := { s.eff with
                downloaded := true
                workspaceCreated := true
                workspaceExists := true } }
      err := none }
  else { evs := [], st := s, err := some "Failed to download session from storage" }

/-- Steps 2b/2c: load the stored metadata when the session existed, else
create and save default metadata. -/
def stLoadMeta (r : Request) (e : Env1) (sid : String) : St → Step := fun s =>
  let md := if e.sessionExisted then
      (match e.storedMeta with
       | some m => m
       | none => freshMeta sid r)
    else freshMeta sid r
  { evs := [], st := { s with metadata := md }, err := none }

/-- Step 3: the `connected` event. -/
def stConnected (r : Request) (sid : String) : St → Step := fun s =>
  { evs := [Ev.connected sid r.resumeSessionId.isSome], st := s, err := none }

/-- Step 3.5: session naming (new sessions only, only when an API key can be
extracted).  `generateSessionName` never throws (it falls back internally),
so the surrounding catch never fires; a branch name is derived only for
repository jobs. -/
def stNaming (r : Request) (e : Env1) (sid : String) : St → Step := fun s =>
  if r.resumeSessionId.isSome then { evs := [], st := s, err := none }
  else match extractApiKey r.codingAssistantAuthentication e.authParsed with
    | none => { evs := [], st := s, err := none }
    | some _ =>
      let name := if e.nameGenOk then e.generatedName else fallbackSessionName r.userRequest
      let bn := if r.github.isSome then
          some (⟨generateBranchName name.data (idFirstSegment sid).data⟩ : String)
        else none
      { evs := [Ev.sessionNamed name bn]
        st := { s with
                  sessionName := some name
                  branchName := bn
                  metadata := { s.metadata with sessionName := some name } }
        err := none }

/-- The events and state update of the optional branch-creation step after a
successful pull (failures of `branchExists`/`createBranch` are caught and
non-fatal). -/
def branchCreationEvs (e : Env1) (bn : Option String) : List Ev :=
  match bn with
  | some b => if e.branchOpsOk && !e.branchExists then [Ev.branchCreated b] else []
  | none => []

/-- Step 4: pull the repository for new sessions with a repository spec, or
point the workspace at the recorded cloned path when resuming a repository
session. -/
def stPull (r : Request) (e : Env1) (sid : String) : St → Step := fun s =>
  match r.github, r.resumeSessionId with
  | some g, none =>
    let ev0 := [Ev.message (strCat "Pulling repository: " g.repoUrl)]
    match pullRepository e.git g.repoUrl g.branch g.directory g.accessToken s.workspacePath with
    | .error m => { evs := ev0, st := s, err := some m }
    | .ok pr =>
      let repoName := stripPre (strCat s.workspacePath "/") pr.targetPath
      let gm : GithubMeta :=
        { repoUrl := g.repoUrl
          branch := pr.branch
          branchName := s.branchName
          clonedPath := repoName }
      let md := { s.metadata with github := some gm }
      let s' : St := { s with
                         metadata := md
                         workspacePath := pr.targetPath
                         eff := { s.eff with pulled := true } }
      let ev1 := ev0 ++ [Ev.pullProgress
        (if pr.wasCloned then "Repository cloned successfully" else "Repository updated successfully")]
      { evs := ev1 ++ branchCreationEvs e s'.branchName, st := s', err := none }
  | _, _ =>
    match s.metadata.github, r.resumeSessionId with
    | some mg, some _ =>
      { evs := [], st := { s with workspacePath := pathJoin (sessionRoot sid) mg.clonedPath },
        err := none }
    | _, _ => { evs := [], st := s, err := none }

/-- Step 4.5: `dbClient.updateSession(status: active)` — awaited without a
guard, so its failure raises. -/
def stDbActive (r : Request) (e : Env1) : St → Step := fun s =>
  match r.database with
  | some _ =>
    if e.dbActiveOk then { evs := [], st := s, err := none }
    else { evs := [], st := s, err := some "Failed to update session in DB" }
  | none => { evs := [], st := s, err := none }

/-- Steps 5/6: the progress message and the agent-capability invocation; the
streamed payloads are forwarded, and an exception from the capability
propagates. -/
def stProvider (r : Request) (e : Env1) : St → Step := fun s =>
  let evs := Ev.message (strCat "Executing with " r.codingAssistantProvider)
      :: e.providerEvents.map Ev.assistant
  let s' : St := { s with eff := { s.eff with providerInvoked := true } }
  if e.providerOk then { evs := evs, st := s', err := none }
  else { evs := evs, st := s', err := some e.providerErrMsg }

/-- The inner body of the auto-commit `try` once it is entered: the events it
emits, and whether it threw.  Mirrors the source's stage order: change
detection, then the `analyzing` event, status+diff, the `generating_message`
event, API-key extraction (when no key is extractable the chain simply ends),
commit-message generation (never throws), the `committing` event, the commit
itself, the `completed` event with the hash. -/
def autoCommitInner (r : Request) (e : Env1) : List Ev × Bool :=
  if !e.hasChangesOk then ([], true)
  else if !e.hasChanges then ([], false)
  else
    let evs1 := [Ev.commitProgress "analyzing" "Analyzing changes for auto-commit..." none none]
    if !e.statusOk then (evs1, true)
    else if !e.diffOk then (evs1, true)
    else
      let evs2 := evs1 ++
        [Ev.commitProgress "generating_message" "Generating commit message..." none none]
      match extractApiKey r.codingAssistantAuthentication e.authParsed with
      | none => (evs2, false)
      | some _ =>
        let msg := generateCommitMessage e.llmCommitOk e.llmCommitMsg
        let evs3 := evs2 ++ [Ev.commitProgress "committing" "Creating commit..." (some msg) none]
        if !e.commitOk then (evs3, true)
        else (evs3 ++ [Ev.commitProgress "completed" "Changes committed successfully"
               (some msg) (some e.commitHash)], false)

/-- Step 6.5: auto-commit.  Runs when a repository spec is present, the
auto-commit flag is not explicitly false, and the metadata records repository
info; any exception inside is caught and answered with a non-critical
`completed` commit-progress event. -/
def stAutoCommit (r : Request) (e : Env1) : St → Step := fun s =>
  if r.github.isSome && !(r.autoCommit == some false) && s.metadata.github.isSome then
    let inner := autoCommitInner r e
    if inner.2 then
      { evs := inner.1 ++
          [Ev.commitProgress "completed" "Auto-commit failed (non-critical)" none none],
        st := s, err := none }
    else { evs := inner.1, st := s, err := none }
  else { evs := [], st := s, err := none }

/-- Step 7: upload the session to durable storage (awaited without a guard on
the success path). -/
def stUpload (e : Env1) : St → Step := fun s =>
  if e.uploadOk then
    { evs := [], st := { s with eff := { s.eff with uploaded := true } }, err := none }
  else { evs := [], st := s, err := some "Failed to upload session to storage" }

/-- Step 8: the `completed` terminal event. -/
def stCompleted : St → Step := fun s =>
  { evs := [Ev.completed], st := s, err := none }

/-- Step 8.5: `dbClient.updateSession(status: completed)` — awaited without a
guard AFTER the `completed` event, so its failure raises into the catch. -/
def stDbCompleted (r : Request) (e : Env1) : St → Step := fun s =>
  match r.database with
  | some _ =>
    if e.dbCompletedOk then { evs := [], st := s, err := none }
    else { evs := [], st := s, err := some "Failed to update completion status in DB" }
  | none => { evs := [], st := s, err := none }

/-- Step 9: remove the local workspace (`fs.rmSync(root, {recursive, force})`,
wrapped in its own try/catch). -/
def stCleanup : St → Step := fun s =>
  { evs := [], st := { s with eff := { s.eff with workspaceExists := false } }, err := none }

/-- The stages before the terminal `completed` event. -/
def preStages (r : Request) (e : Env1) (sid : String) : St → Step :=
  seqS (stValidate r) (seqS (stDownload e) (seqS (stLoadMeta r e sid)
    (seqS (stConnected r sid) (seqS (stNaming r e sid) (seqS (stPull r e sid)
      (seqS (stDbActive r e) (seqS (stProvider r e) (seqS (stAutoCommit r e)
        (stUpload e)))))))))

/-- The stages after the terminal `completed` event. -/
def postStages (r : Request) (e : Env1) : St → Step :=
  seqS (stDbCompleted r e) stCleanup

/-- The whole `try` block of `Orchestrator.execute`. -/
def tryPhase (r : Request) (e : Env1) : Step :=
  seqS (preStages r e (sessionIdOf r e)) (seqS stCompleted (postStages r e))
    (initSt r (sessionIdOf r e))

/-- Result of one job: the SSE event trace in emission order and the final
state (with the observed side effects). -/
structure RunResult where
  events : List Ev
  st : St
deriving DecidableEq

/-- `Orchestrator.execute` of the MinIO-storage orchestrator: run the `try`
block; on an exception, emit a single `error` event with the classified code,
best-effort upload the session if the workspace directory still exists, remove
the workspace, update the status database (failure swallowed), and close the
stream. -/
def execute (r : Request) (e : Env1) : RunResult :=
  let t := tryPhase r e
  match t.err with
  | none => { events := t.evs, st := t.st }
  | some m =>
    { events := t.evs ++ [Ev.error m (getErrorCode m)]
      st := { t.st with eff := { t.st.eff with
        uploaded := t.st.eff.uploaded || (t.st.eff.workspaceExists && e.errorUploadOk)
        workspaceExists := false } } }

/-! ## The event sink (`sendEvent` inside `Orchestrator.execute`) -/

/-- One chunk dispatched to the remote durable sink: the sequence number
assigned synchronously before dispatch, the event, and whether the
asynchronous write eventually succeeded (its failure is caught and logged —
nothing reads this field). -/
structure Chunk where
  idx : Nat
  ev : Ev
  delivered : Bool
deriving DecidableEq

/-- The three sinks fed by `sendEvent`: the live SSE transport, the local
append-only per-session log, and the remote chunk stream with its
monotonically increasing `chunkIndex`. -/
structure SinkSt where
  live : List Ev
  localLog : List Ev
  chunks : List Chunk
  chunkIndex : Nat
deriving DecidableEq

/-- `sendEvent`: write to the live transport, append to the local log
(failures caught), and — when a database sink is configured — dispatch a chunk
carrying the current `chunkIndex` and post-increment the counter; the write's
own failure (given by `failAt` on the assigned index) is caught by the
attached handler and influences nothing else. -/
def sendEvent (db : Bool) (failAt : Nat → Bool) (ev : Ev) (st : SinkSt) : SinkSt :=
  let st1 := { st with live := st.live ++ [ev], localLog := st.localLog ++ [ev] }
  if db then
    { st1 with
        chunks := st1.chunks ++ [⟨st1.chunkIndex, ev, !failAt st1.chunkIndex⟩]
        chunkIndex := st1.chunkIndex + 1 }
  else st1

/-- Delivering a whole event trace through `sendEvent`, starting from the
fresh per-job sink state (`chunkIndex = 0`). -/
def deliver (db : Bool) (failAt : Nat → Bool) (evs : List Ev) : SinkSt :=
  evs.foldl (fun st ev => sendEvent db failAt ev st) ⟨[], [], [], 0⟩

/-! ## The local-volume orchestrator (`unified-worker/src/orchestrator.ts`) -/

/-- Behaviour of the external collaborators for one job of the unified-worker
orchestrator (local volume session store). -/
structure Env2 where
  newSessionId : String := "new-session"
  /-- `sessionManager.sessionExists` — the session directory is on the
  volume. -/
  sessionDirExists : Bool := false
  /-- `sessionManager.loadMetadata` result. -/
  loadedMeta : Option SessionMetadata := none
  /-- `fs.existsSync` on the execution workspace path. -/
  execWsExists : Bool := true
  git : GitEnv := { repoExistsAtTarget := false }
  dbActiveOk : Bool := true
  providerOk : Bool := true
  providerErrMsg : String := "provider execution failed"
  providerEvents : List Nat := []
  dbCompletedOk : Bool := true
deriving DecidableEq

/-- Pipeline state of the unified-worker orchestrator; `savedMetas` records
every `sessionManager.saveMetadata` call in order. -/
structure StW where
  metadata : SessionMetadata
  workspacePath : String
  savedMetas : List SessionMetadata := []
  eff : Effects := {}
deriving DecidableEq

/-- The unified-worker session root
(`path.join(workspaceRoot, 'session-' + sessionId)`,
`workspaceRoot = '/workspace'`). -/
def uwRoot (sid : String) : String := strCat "/workspace/session-" sid

def sessionIdOfW (r : Request) (e : Env2) : String :=
  match r.resumeSessionId with
  | some s => s
  | none => e.newSessionId

/-- `Orchestrator.validateRequest` of the unified-worker variant — identical
checks, but the credential field is `codingAssistantAccessToken`, so the
message for a blank credential differs. -/
def validateRequestUW (r : Request) : Option String :=
  if isBlank r.userRequest then some "userRequest is required"
  else if isBlank r.codingAssistantProvider then some "codingAssistantProvider is required"
  else if isBlank r.codingAssistantAuthentication then some "codingAssistantAccessToken is required"
  else if !isProviderSupported r.codingAssistantProvider then
    some (strCat "Unsupported provider: " r.codingAssistantProvider)
  else if r.github.isSome && r.resumeSessionId.isSome then some bothMsg
  else if (match r.github with | some g => isBlank g.repoUrl | none => false) then
    some "github.repoUrl is required when github integration is enabled"
  else match r.database with
    | some d =>
      if isBlank d.sessionId then
        some "database.sessionId is required when database persistence is enabled"
      else if isBlank d.accessToken then
        some "database.accessToken is required when database persistence is enabled"
      else none
    | none => none

def uwValidate (r : Request) : StW → StepG StW := fun s =>
  { evs := [], st := s, err := validateRequestUW r }

/-- `sessionManager.getExecutionWorkspace`: the recorded cloned path under the
session root when repository info with a non-empty cloned path is present,
else the session root itself. -/
def getExecutionWorkspace (sid : String) (m : SessionMetadata) : String :=
  match m.github with
  | some g => if g.clonedPath ≠ "" then pathJoin (uwRoot sid) g.clonedPath else uwRoot sid
  | none => uwRoot sid

/-- Session resolution of the unified-worker orchestrator: resume (with
missing-workspace recovery via re-clone) or create a fresh session
workspace. -/
def uwResolve (r : Request) (e : Env2) (sid : String) : StW → StepG StW := fun s =>
  match r.resumeSessionId with
  | some _ =>
    if !e.sessionDirExists then
      { evs := [], st := s, err := some (strCat "Session not found: " sid) }
    else
      match e.loadedMeta with
      | none =>
        { evs := [], st := s, err := some (strCat "Session metadata not found: " sid) }
      | some m =>
        let s1 : StW := { s with metadata := m, workspacePath := getExecutionWorkspace sid m }
        if e.execWsExists then { evs := [], st := s1, err := none }
        else
          match m.github with
          | some g =>
            let ev0 := [Ev.message (strCat "Workspace missing, recovering from GitHub: " g.repoUrl)]
            match pullRepository e.git g.repoUrl (some g.branch) (some g.clonedPath) none (uwRoot sid) with
            | .error rm =>
              { evs := ev0, st := s1,
                err := some (strCat "Cannot resume session: workspace missing and recovery failed. Original error: " rm) }
            | .ok pr =>
              let s2 : StW := { s1 with workspacePath := pr.targetPath }
              let s3 : StW :=
                if pr.branch ≠ g.branch then
                  let md := { m with github := some { g with branch := pr.branch } }
                  { s2 with metadata := md, savedMetas := s2.savedMetas ++ [md] }
                else s2
              { evs := ev0 ++ [Ev.pullProgress
                  (strCat "Workspace recovered from GitHub (branch: " (strCat pr.branch ")"))]
                st := s3
                err := none }
          | none =>
            { evs := [], st := s1,
              err := some "Cannot resume session: workspace missing and no GitHub metadata available for recovery. The session workspace may have been pruned." }
  | none =>
    { evs := []
      st := { s with
                metadata := freshMeta sid r
                workspacePath := uwRoot sid
                eff := { s.eff with workspaceCreated := true, workspaceExists := true } }
      err := none }

def uwConnected (r : Request) (sid : String) : StW → StepG StW := fun s =>
  { evs := [Ev.connected sid r.resumeSessionId.isSome], st := s, err := none }

/-- Repository pull for new unified-worker sessions with a repository spec
(no naming and no branch creation in this variant). -/
def uwPull (r : Request) (e : Env2) : StW → StepG StW := fun s =>
  match r.github, r.resumeSessionId with
  | some g, none =>
    let ev0 := [Ev.message (strCat "Pulling repository: " g.repoUrl)]
    match pullRepository e.git g.repoUrl g.branch g.directory g.accessToken s.workspacePath with
    | .error m => { evs := ev0, st := s, err := some m }
    | .ok pr =>
      let repoName := stripPre (strCat s.workspacePath "/") pr.targetPath
      let gm : GithubMeta :=
        { repoUrl := g.repoUrl
          branch := pr.branch
          branchName := none
          clonedPath := repoName }
      let md := { s.metadata with github := some gm }
      let s' : StW := { s with
                          metadata := md
                          workspacePath := pr.targetPath
                          savedMetas := s.savedMetas ++ [md]
                          eff := { s.eff with pulled := true } }
      { evs := ev0 ++ [Ev.pullProgress
          (if pr.wasCloned then "Repository cloned successfully" else "Repository updated successfully")]
        st := s'
        err := none }
  | _, _ => { evs := [], st := s, err := none }

def uwDbActive (r : Request) (e : Env2) : StW → StepG StW := fun s =>
  match r.database with
  | some _ =>
    if e.dbActiveOk then { evs := [], st := s, err := none }
    else { evs := [], st := s, err := some "Failed to update session in DB" }
  | none => { evs := [], st := s, err := none }

def uwProvider (r : Request) (e : Env2) : StW → StepG StW := fun s =>
  let evs := Ev.message (strCat "Executing with " r.codingAssistantProvider)
      :: e.providerEvents.map Ev.assistant
  let s' : StW := { s with eff := { s.eff with providerInvoked := true } }
  if e.providerOk then { evs := evs, st := s', err := none }
  else { evs := evs, st := s', err := some e.providerErrMsg }

def uwCompleted : StW → StepG StW := fun s =>
  { evs := [Ev.completed], st := s, err := none }

def uwDbCompleted (r : Request) (e : Env2) : StW → StepG StW := fun s =>
  match r.database with
  | some _ =>
    if e.dbCompletedOk then { evs := [], st := s, err := none }
    else { evs := [], st := s, err := some "Failed to update completion status in DB" }
  | none => { evs := [], st := s, err := none }

def initStW (r : Request) (sid : String) : StW :=
  { metadata := freshMeta sid r, workspacePath := uwRoot sid }

/-- The `try` block of the unified-worker `Orchestrator.execute`. -/
def uwTryPhase (r : Request) (e : Env2) : StepG StW :=
  seqS (uwValidate r) (seqS (uwResolve r e (sessionIdOfW r e))
    (seqS (uwConnected r (sessionIdOfW r e)) (seqS (uwPull r e)
      (seqS (uwDbActive r e) (seqS (uwProvider r e)
        (seqS uwCompleted (uwDbCompleted r e)))))))
    (initStW r (sessionIdOfW r e))

structure RunResultW where
  events : List Ev
  st : StW
deriving DecidableEq

/-- The unified-worker `Orchestrator.execute`: no upload and no workspace
cleanup exist in this variant; on an exception a single `error` event with the
classified code is emitted and the stream is closed. -/
def executeUW (r : Request) (e : Env2) : RunResultW :=
  let t := uwTryPhase r e
  match t.err with
  | none => { events := t.evs, st := t.st }
  | some m => { events := t.evs ++ [Ev.error m (getErrorCode m)], st := t.st }

/-! ## The HTTP front door (`server.ts`, `POST /execute`) -/

/-- Environment-variable fallbacks read by the server. -/
structure ServerEnv where
  defaultProvider : Option String := none
  defaultAuth : Option String := none
  defaultGithubToken : Option String := none
deriving DecidableEq

/-- Outcome of `POST /execute`: an immediate 400 JSON error, or the SSE
stream produced by the orchestrator. -/
inductive ServerOutcome where
  | badRequest (error : String) (message : String)
  | stream (res : RunResult)
deriving DecidableEq

/-- JavaScript falsiness of an (optional) string field. -/
def strFalsy (s : Option String) : Bool :=
  match s with
  | none => true
  | some v => v = ""

/-- The `POST /execute` handler's field validation and environment fallbacks,
followed by the orchestrator run.  `!field` rejects only a missing or empty
string — whitespace-only values pass through to the orchestrator. -/
def handleExecute (srv : ServerEnv) (r : Request) (e : Env1) : ServerOutcome :=
  if r.userRequest = "" then
    .badRequest "invalid_request" "Missing required field: userRequest"
  else
    let provRes : Except ServerOutcome String :=
      if r.codingAssistantProvider = "" ∨ r.codingAssistantProvider = "FROM_ENV" then
        match srv.defaultProvider with
        | some p => .ok p
        | none => .error (.badRequest "invalid_request"
            "Missing required field: codingAssistantProvider (not in request or environment)")
      else .ok r.codingAssistantProvider
    match provRes with
    | .error o => o
    | .ok prov =>
      let authRes : Except ServerOutcome String :=
        if r.codingAssistantAuthentication = "" ∨ r.codingAssistantAuthentication = "FROM_ENV" then
          match srv.defaultAuth with
          | some a => .ok a
          | none => .error (.badRequest "invalid_request"
              "Missing required field: codingAssistantAuthentication (not in request or environment)")
        else .ok r.codingAssistantAuthentication
      match authRes with
      | .error o => o
      | .ok auth =>
        let gh : Option GithubSpec := match r.github with
          | some g =>
            if strFalsy g.accessToken ∨ g.accessToken = some "FROM_ENV" then
              match srv.defaultGithubToken with
              | some t => some { g with accessToken := some t }
              | none => some g
            else some g
          | none => none
        .stream (execute { r with
          codingAssistantProvider := prov
          codingAssistantAuthentication := auth
          github := gh } e)

/-! ## General lemmas about stage sequencing -/

theorem seqS_err_some {σ : Type} (f g : σ → StepG σ) (s : σ) {m : String}
    (h : (f s).err = some m) : seqS f g s = f s := by
  unfold seqS; simp [h]

theorem seqS_err_none {σ : Type} (f g : σ → StepG σ) (s : σ)
    (h : (f s).err = none) :
    seqS f g s =
      { evs := (f s).evs ++ (g (f s).st).evs
        st := (g (f s).st).st
        err := (g (f s).st).err } := by
  unfold seqS; simp [h]

/-- A stage none of whose emitted events satisfies `p`, whatever the incoming
state. -/
def cleanFor (p : Ev → Bool) {σ : Type} (f : σ → StepG σ) : Prop :=
  ∀ s, (f s).evs.filter p = []

theorem cleanFor_seqS {σ : Type} {p : Ev → Bool} {f g : σ → StepG σ}
    (hf : cleanFor p f) (hg : cleanFor p g) : cleanFor p (seqS f g) := by
  intro s
  cases h : (f s).err with
  | none =>
    rw [seqS_err_none _ _ _ h]
    simp only [List.filter_append, hf s, hg ((f s).st), List.append_nil]
  | some m =>
    rw [seqS_err_some _ _ _ h]
    exact hf s

theorem filter_map_assistant (p : Ev → Bool) (h : ∀ n, p (Ev.assistant n) = false)
    (l : List Nat) : (l.map Ev.assistant).filter p = [] := by
  induction l with
  | nil => rfl
  | cons a t ih => simp [h, ih]

/-! ## Which events each MinIO-orchestrator stage can emit -/

theorem stValidate_clean (r : Request) (p : Ev → Bool) : cleanFor p (stValidate r) := by
  intro s; rfl

theorem stDownload_clean (e : Env1) (p : Ev → Bool) : cleanFor p (stDownload e) := by
  intro s; unfold stDownload; split <;> rfl

theorem stLoadMeta_clean (r : Request) (e : Env1) (sid : String) (p : Ev → Bool) :
    cleanFor p (stLoadMeta r e sid) := by
  intro s; rfl

theorem stConnected_clean (r : Request) (sid : String) (p : Ev → Bool)
    (hp : ∀ i b, p (Ev.connected i b) = false) : cleanFor p (stConnected r sid) := by
  intro s; simp [stConnected, hp]

theorem stNaming_clean (r : Request) (e : Env1) (sid : String) (p : Ev → Bool)
    (hp : ∀ n bn, p (Ev.sessionNamed n bn) = false) : cleanFor p (stNaming r e sid) := by
  intro s
  unfold stNaming
  split
  · rfl
  · split
    · rfl
    · simp [hp]

theorem branchCreationEvs_clean (e : Env1) (bn : Option String) (p : Ev → Bool)
    (hp : ∀ b, p (Ev.branchCreated b) = false) : (branchCreationEvs e bn).filter p = [] := by
  unfold branchCreationEvs
  split
  · split <;> simp [hp]
  · rfl

theorem stPull_clean (r : Request) (e : Env1) (sid : String) (p : Ev → Bool)
    (hp₁ : ∀ m, p (Ev.message m) = false)
    (hp₂ : ∀ m, p (Ev.pullProgress m) = false)
    (hp₃ : ∀ b, p (Ev.branchCreated b) = false) : cleanFor p (stPull r e sid) := by
  intro s
  unfold stPull
  split
  · split
    · simp [hp₁]
    · simp [List.filter_append, hp₁, hp₂, branchCreationEvs_clean e _ p hp₃]
  · split
    · rfl
    · rfl

theorem stDbActive_clean (r : Request) (e : Env1) (p : Ev → Bool) :
    cleanFor p (stDbActive r e) := by
  intro s
  unfold stDbActive
  split
  · split <;> rfl
  · rfl

theorem stProvider_clean (r : Request) (e : Env1) (p : Ev → Bool)
    (hp₁ : ∀ m, p (Ev.message m) = false)
    (hp₂ : ∀ n, p (Ev.assistant n) = false) : cleanFor p (stProvider r e) := by
  intro s
  unfold stProvider
  split <;> simp [hp₁, filter_map_assistant p hp₂]

theorem autoCommitInner_clean (r : Request) (e : Env1) (p : Ev → Bool)
    (hp : ∀ st m cm ch, p (Ev.commitProgress st m cm ch) = false) :
    (autoCommitInner r e).1.filter p = [] := by
  unfold autoCommitInner
  split
  · rfl
  · split
    · rfl
    · split
      · simp [hp]
      · split
        · simp [hp]
        · split
          · simp [hp]
          · split
            · simp [hp]
            · simp [hp]

theorem stAutoCommit_term_clean (r : Request) (e : Env1) :
    cleanFor isTerminal (stAutoCommit r e) := by
  intro s
  have hcp : ∀ st m cm ch, isTerminal (Ev.commitProgress st m cm ch) = false := by
    intro _ _ _ _; rfl
  unfold stAutoCommit
  split
  · cases hin : (autoCommitInner r e).2 <;>
      simp [hin, List.filter_append, autoCommitInner_clean r e _ hcp, hcp]
  · rfl

theorem stUpload_clean (e : Env1) (p : Ev → Bool) : cleanFor p (stUpload e) := by
  intro s; unfold stUpload; split <;> rfl

theorem stCompleted_evs (s : St) : (stCompleted s).evs = [Ev.completed] := rfl

theorem stDbCompleted_evs (r : Request) (e : Env1) (s : St) :
    (stDbCompleted r e s).evs = [] := by
  unfold stDbCompleted
  split
  · split <;> rfl
  · rfl

theorem stCleanup_evs (s : St) : (stCleanup s).evs = [] := rfl

/-- No stage before the terminal `completed` event emits a terminal event. -/
theorem preStages_term_clean (r : Request) (e : Env1) (sid : String) :
    cleanFor isTerminal (preStages r e sid) := by
  unfold preStages
  refine cleanFor_seqS (stValidate_clean r _) ?_
  refine cleanFor_seqS (stDownload_clean e _) ?_
  refine cleanFor_seqS (stLoadMeta_clean r e sid _) ?_
  refine cleanFor_seqS (stConnected_clean r sid _ (by intro _ _; rfl)) ?_
  refine cleanFor_seqS (stNaming_clean r e sid _ (by intro _ _; rfl)) ?_
  refine cleanFor_seqS
    (stPull_clean r e sid _ (by intro _; rfl) (by intro _; rfl) (by intro _; rfl)) ?_
  refine cleanFor_seqS (stDbActive_clean r e _) ?_
  refine cleanFor_seqS (stProvider_clean r e _ (by intro _; rfl) (by intro _; rfl)) ?_
  exact cleanFor_seqS (stAutoCommit_term_clean r e) (stUpload_clean e _)

/-- The two stages after the `completed` event emit nothing. -/
theorem postStages_evs (r : Request) (e : Env1) (s : St) : (postStages r e s).evs = [] := by
  unfold postStages
  cases h : (stDbCompleted r e s).err with
  | none => rw [seqS_err_none _ _ _ h]; simp [stDbCompleted_evs, stCleanup_evs]
  | some m => rw [seqS_err_some _ _ _ h]; exact stDbCompleted_evs r e s

/-- When the status database is absent or its completion update succeeds, the
post-completion stages succeed and end with the workspace removed. -/
theorem postStages_ok (r : Request) (e : Env1) (s : St)
    (h : r.database = none ∨ e.dbCompletedOk = true) :
    (postStages r e s).err = none ∧ (postStages r e s).st.eff.workspaceExists = false := by
  have hdb : (stDbCompleted r e s).err = none ∧ (stDbCompleted r e s).st = s := by
    unfold stDbCompleted
    rcases h with h | h
    · simp [h]
    · cases hd : r.database <;> simp [h]
  unfold postStages
  rw [seqS_err_none _ _ _ hdb.1, hdb.2]
  exact ⟨rfl, rfl⟩

/-! ## Claim C1 -/

/-- A plain job with a configured durable-status sink. -/
def reqDbJob : Request :=
  { userRequest := "do x"
    codingAssistantProvider := "claude-code"
    codingAssistantAuthentication := "sk-ant-key"
    database := some { sessionId := "db1", accessToken := "tok1" } }

/-- All external calls succeed except the post-completion durable-status
update. -/
def envDbCompletedFails : Env1 := { dbCompletedOk := false }

/-- C1 (counterexample): when the durable-status update that runs after the
`completed` event fails, the stream carries TWO terminal events — `completed`
followed by `error` — refuting "exactly one terminal event … even when a
post-execution step such as the durable-status update … fails". -/
theorem c1_counterexample :
    (execute reqDbJob envDbCompletedFails).events.filter isTerminal =
      [Ev.completed, Ev.error "Failed to update completion status in DB" "internal_error"] := by
  decide

/-- C1 (amended): provided the post-completion durable-status update does not
fail (no status sink, or its update succeeds), every job — on the success path
and on every exception path, including upload failures — emits exactly one
terminal event, that terminal event closes the stream (it is the last event),
and the local workspace directory no longer exists at the end. -/
theorem c1_amended (r : Request) (e : Env1)
    (h : r.database = none ∨ e.dbCompletedOk = true) :
    ((execute r e).events.filter isTerminal).length = 1 ∧
    (∃ ev, (execute r e).events.getLast? = some ev ∧ isTerminal ev = true) ∧
    (execute r e).st.eff.workspaceExists = false := by
  have hclean := preStages_term_clean r e (sessionIdOf r e) (initSt r (sessionIdOf r e))
  cases hP : (preStages r e (sessionIdOf r e) (initSt r (sessionIdOf r e))).err with
  | some m =>
    have ht : tryPhase r e = preStages r e (sessionIdOf r e) (initSt r (sessionIdOf r e)) := by
      unfold tryPhase
      exact seqS_err_some _ _ _ hP
    unfold execute
    rw [ht]
    simp only [hP]
    refine ⟨?_, ⟨Ev.error m (getErrorCode m), ?_, by trivial⟩, by trivial⟩
    · simp [List.filter_append, hclean, isTerminal]
    · simp
  | none =>
    have hcomp : (stCompleted (preStages r e (sessionIdOf r e)
        (initSt r (sessionIdOf r e))).st).err = none := rfl
    have hpost := postStages_ok r e
      (stCompleted (preStages r e (sessionIdOf r e) (initSt r (sessionIdOf r e))).st).st h
    have hpevs := postStages_evs r e
      (stCompleted (preStages r e (sessionIdOf r e) (initSt r (sessionIdOf r e))).st).st
    have ht : tryPhase r e =
        { evs := (preStages r e (sessionIdOf r e) (initSt r (sessionIdOf r e))).evs ++
            ([Ev.completed] ++ (postStages r e (stCompleted (preStages r e (sessionIdOf r e)
              (initSt r (sessionIdOf r e))).st).st).evs)
          st := (postStages r e (stCompleted (preStages r e (sessionIdOf r e)
            (initSt r (sessionIdOf r e))).st).st).st
          err := (postStages r e (stCompleted (preStages r e (sessionIdOf r e)
            (initSt r (sessionIdOf r e))).st).st).err } := by
      unfold tryPhase
      rw [seqS_err_none _ _ _ hP, seqS_err_none _ _ _ hcomp]
      rfl
    unfold execute
    rw [ht]
    simp only [hpost.1, hpevs]
    refine ⟨?_, ⟨Ev.completed, ?_, by trivial⟩, ?_⟩
    · simp [List.filter_append, hclean, isTerminal]
    · simp
    · exact hpost.2

/-- A plain job with no durable-status sink. -/
def reqSimple : Request :=
  { userRequest := "do x"
    codingAssistantProvider := "claude-code"
    codingAssistantAuthentication := "sk-ant-key" }

/-- Witness for `c1_amended` at a concrete job. -/
theorem c1_amended_witness :
    (reqSimple.database = none ∨ ({} : Env1).dbCompletedOk = true) ∧
    (((execute reqSimple {}).events.filter isTerminal).length = 1 ∧
      (∃ ev, (execute reqSimple {}).events.getLast? = some ev ∧ isTerminal ev = true) ∧
      (execute reqSimple {}).st.eff.workspaceExists = false) :=
  ⟨Or.inl rfl, c1_amended reqSimple {} (Or.inl rfl)⟩

/-! ## Substring-classification lemmas -/

theorem isPre_append (p s t : List Char) (h : isPre p s = true) :
    isPre p (s ++ t) = true := by
  induction p generalizing s with
  | nil => rfl
  | cons a as ih =>
    cases s with
    | nil => simp [isPre] at h
    | cons b bs =>
      simp only [isPre, Bool.and_eq_true] at h ⊢
      exact ⟨h.1, ih bs h.2⟩

theorem containsSub_of_isPre (needle hay : List Char) (h : isPre needle hay = true) :
    containsSub needle hay = true := by
  cases hay with
  | nil =>
    cases needle with
    | nil => rfl
    | cons a as => simp [isPre] at h
  | cons c t =>
    unfold containsSub
    rw [h]
    rfl

/-- A message that starts with a literal containing the needle as a prefix
matches `includes`. -/
theorem includesStr_strCat_left (a b needle : String)
    (h : isPre needle.data a.data = true) : includesStr (strCat a b) needle = true :=
  containsSub_of_isPre _ _ (isPre_append _ _ _ h)

theorem getErrorCode_sessionNotFound (sid : String) :
    getErrorCode (strCat "Session not found: " sid) = "session_not_found" := by
  unfold getErrorCode
  rw [includesStr_strCat_left _ _ _ (by decide)]
  rfl

/-! ## Claim C2 -/

/-- A request carrying both a repository spec and a resume id (the other
fields valid). -/
def reqBoth : Request :=
  { userRequest := "fix bug"
    codingAssistantProvider := "claude-code"
    codingAssistantAuthentication := "sk-ant-key"
    github := some { repoUrl := "https://github.com/a/b" }
    resumeSessionId := some "s1" }

/-- C2: a request with both a repository spec and a resume id does fail during
validation before any storage download, clone or workspace creation — but the
emitted error is classified `repo_not_found`, not `invalid_request`: the
validation message contains the word "repository", and `getErrorCode` checks
that substring BEFORE its dedicated (and here unreachable) "Cannot provide
both" → `invalid_request` branch. -/
theorem c2_bug_evaluation :
    validateRequest reqBoth = some bothMsg ∧
    (execute reqBoth {}).events = [Ev.error bothMsg "repo_not_found"] ∧
    (execute reqBoth {}).st.eff.downloaded = false ∧
    (execute reqBoth {}).st.eff.workspaceCreated = false ∧
    (execute reqBoth {}).st.eff.pulled = false ∧
    getErrorCode bothMsg = "repo_not_found" ∧
    includesStr bothMsg "repository" = true ∧
    includesStr bothMsg "Cannot provide both" = true := by
  decide

/-! ## Claim C3 -/

/-- A resume request for session `s1`. -/
def reqResume : Request :=
  { userRequest := "do x"
    codingAssistantProvider := "claude-code"
    codingAssistantAuthentication := "sk-ant-key"
    resumeSessionId := some "s1" }

/-- C3 (counterexample): in the MinIO-storage orchestrator, resuming a session
that does NOT exist in durable storage does not fail at all — no error event
is emitted, fresh default metadata is created, the agent capability IS
invoked, and the job completes. -/
theorem c3_counterexample :
    (execute reqResume { sessionExisted := false }).events.filter isErrorEv = [] ∧
    (execute reqResume { sessionExisted := false }).st.eff.providerInvoked = true ∧
    (execute reqResume { sessionExisted := false }).events.getLast? = some Ev.completed := by
  decide

/-- C3 (amended): in the unified-worker orchestrator, resuming a session whose
directory is absent from the local session store fails before anything else
happens: the stream carries exactly the one `error` event, classified
`session_not_found`, and the agent-execution capability is never invoked. -/
theorem c3_amended (r : Request) (e : Env2) (sid : String)
    (hres : r.resumeSessionId = some sid)
    (hvalid : validateRequestUW r = none)
    (hdir : e.sessionDirExists = false) :
    (executeUW r e).events =
      [Ev.error (strCat "Session not found: " sid) "session_not_found"] ∧
    (executeUW r e).st.eff.providerInvoked = false := by
  have hsid : sessionIdOfW r e = sid := by unfold sessionIdOfW; rw [hres]
  have h1 : (uwValidate r (initStW r sid)).err = none := hvalid
  have h2 : uwResolve r e sid (initStW r sid) =
      { evs := [], st := initStW r sid, err := some (strCat "Session not found: " sid) } := by
    unfold uwResolve
    rw [hres]
    simp [hdir]
  unfold executeUW uwTryPhase
  rw [hsid]
  rw [seqS_err_none _ _ _ h1]
  rw [seqS_err_some _ _ _ (show (uwResolve r e sid ((uwValidate r (initStW r sid)).st)).err =
    some (strCat "Session not found: " sid) by rw [show (uwValidate r (initStW r sid)).st =
      initStW r sid from rfl, h2])]
  rw [show (uwValidate r (initStW r sid)).st = initStW r sid from rfl, h2]
  simp [getErrorCode_sessionNotFound]
  exact ⟨rfl, rfl⟩

/-- Witness for `c3_amended` at a concrete resume request and environment. -/
theorem c3_amended_witness :
    (reqResume.resumeSessionId = some "s1" ∧
     validateRequestUW reqResume = none ∧
     ({ sessionDirExists := false } : Env2).sessionDirExists = false) ∧
    ((executeUW reqResume { sessionDirExists := false }).events =
      [Ev.error (strCat "Session not found: " "s1") "session_not_found"] ∧
     (executeUW reqResume { sessionDirExists := false }).st.eff.providerInvoked = false) :=
  ⟨⟨rfl, by decide, rfl⟩, c3_amended reqResume { sessionDirExists := false } "s1" rfl (by decide) rfl⟩

/-! ## Claim C4 -/

/-- Characterisation of folding an event trace through `sendEvent` with a
database sink: the dispatched chunks extend the existing list with the events
paired with consecutive indices starting at the current counter, the counter
advances by the number of events, and the live transport receives every event
— all regardless of which remote writes fail. -/
theorem sink_fold_spec (f : Nat → Bool) (evs : List Ev) (st : SinkSt) :
    (evs.foldl (fun s ev => sendEvent true f ev s) st).chunks.map (fun c => (c.idx, c.ev)) =
        st.chunks.map (fun c => (c.idx, c.ev)) ++ (List.range' st.chunkIndex evs.length).zip evs ∧
    (evs.foldl (fun s ev => sendEvent true f ev s) st).chunkIndex = st.chunkIndex + evs.length ∧
    (evs.foldl (fun s ev => sendEvent true f ev s) st).live = st.live ++ evs := by
  induction evs generalizing st with
  | nil => simp
  | cons a t ih =>
    obtain ⟨h1, h2, h3⟩ := ih (sendEvent true f a st)
    refine ⟨?_, ?_, ?_⟩
    · rw [List.foldl_cons, h1]
      simp [sendEvent, List.range'_succ]
    · rw [List.foldl_cons, h2]
      simp [sendEvent]
      omega
    · rw [List.foldl_cons, h3]
      simp [sendEvent]

/-- C4: for a job with a remote durable sink, the sequence numbers attached to
the dispatched chunks are exactly `0, 1, 2, …` in dispatch order; moreover
neither the `(index, event)` assignment of any chunk nor the live event stream
depends on which remote writes fail — a failed write aborts nothing and shifts
no later index. -/
theorem c4_chunk_indices (r : Request) (e : Env1) (f : Nat → Bool)
    (hdb : r.database.isSome = true) :
    (deliver r.database.isSome f (execute r e).events).chunks.map Chunk.idx =
        List.range (execute r e).events.length ∧
    (∀ f', (deliver r.database.isSome f' (execute r e).events).chunks.map
        (fun c => (c.idx, c.ev)) =
      (deliver r.database.isSome f (execute r e).events).chunks.map
        (fun c => (c.idx, c.ev))) ∧
    (∀ f', (deliver r.database.isSome f' (execute r e).events).live =
        (deliver r.database.isSome f (execute r e).events).live) := by
  rw [hdb]
  have key : ∀ (g : Nat → Bool),
      (deliver true g (execute r e).events).chunks.map (fun c => (c.idx, c.ev)) =
        (List.range' 0 (execute r e).events.length).zip (execute r e).events ∧
      (deliver true g (execute r e).events).live = (execute r e).events := by
    intro g
    obtain ⟨h1, _, h3⟩ := sink_fold_spec g (execute r e).events ⟨[], [], [], 0⟩
    constructor
    · rw [deliver, h1]; simp
    · rw [deliver, h3]; simp
  refine ⟨?_, ?_, ?_⟩
  · have h := (key f).1
    have : (deliver true f (execute r e).events).chunks.map Chunk.idx =
        ((deliver true f (execute r e).events).chunks.map (fun c => (c.idx, c.ev))).map
          Prod.fst := by
      rw [List.map_map]; rfl
    rw [this, h, List.map_fst_zip, List.range_eq_range']
    rw [List.length_range']
  · intro f'
    rw [(key f').1, (key f).1]
  · intro f'
    rw [(key f').2, (key f).2]

/-- Witness for `c4_chunk_indices`: a database-configured job where the write
of chunk 1 fails. -/
theorem c4_chunk_indices_witness :
    (reqDbJob.database.isSome = true) ∧
    ((deliver reqDbJob.database.isSome (fun n => n == 1) (execute reqDbJob {}).events).chunks.map
        Chunk.idx = List.range (execute reqDbJob {}).events.length ∧
     (∀ f', (deliver reqDbJob.database.isSome f' (execute reqDbJob {}).events).chunks.map
          (fun c => (c.idx, c.ev)) =
        (deliver reqDbJob.database.isSome (fun n => n == 1) (execute reqDbJob {}).events).chunks.map
          (fun c => (c.idx, c.ev))) ∧
     (∀ f', (deliver reqDbJob.database.isSome f' (execute reqDbJob {}).events).live =
        (deliver reqDbJob.database.isSome (fun n => n == 1) (execute reqDbJob {}).events).live)) :=
  ⟨rfl, c4_chunk_indices reqDbJob {} (fun n => n == 1) rfl⟩

/-! ## Claim C5 -/

/-- If no stage before `completed` can emit a `p`-event, and neither
`completed` nor `error` events satisfy `p`, then the whole run emits no
`p`-event. -/
theorem execute_filter_nil (r : Request) (e : Env1) (p : Ev → Bool)
    (hpre : cleanFor p (preStages r e (sessionIdOf r e)))
    (hcompleted : p Ev.completed = false)
    (herr : ∀ m c, p (Ev.error m c) = false) :
    (execute r e).events.filter p = [] := by
  cases hP : (preStages r e (sessionIdOf r e) (initSt r (sessionIdOf r e))).err with
  | some m =>
    have ht : tryPhase r e = preStages r e (sessionIdOf r e) (initSt r (sessionIdOf r e)) := by
      unfold tryPhase
      exact seqS_err_some _ _ _ hP
    unfold execute
    rw [ht]
    simp only [hP]
    simp [List.filter_append, hpre _, herr]
  | none =>
    have hcomp : (stCompleted (preStages r e (sessionIdOf r e)
        (initSt r (sessionIdOf r e))).st).err = none := rfl
    have hpevs := postStages_evs r e
      (stCompleted (preStages r e (sessionIdOf r e) (initSt r (sessionIdOf r e))).st).st
    have ht : tryPhase r e =
        { evs := (preStages r e (sessionIdOf r e) (initSt r (sessionIdOf r e))).evs ++
            ([Ev.completed] ++ (postStages r e (stCompleted (preStages r e (sessionIdOf r e)
              (initSt r (sessionIdOf r e))).st).st).evs)
          st := (postStages r e (stCompleted (preStages r e (sessionIdOf r e)
            (initSt r (sessionIdOf r e))).st).st).st
          err := (postStages r e (stCompleted (preStages r e (sessionIdOf r e)
            (initSt r (sessionIdOf r e))).st).st).err } := by
      unfold tryPhase
      rw [seqS_err_none _ _ _ hP, seqS_err_none _ _ _ hcomp]
      rfl
    unfold execute
    rw [ht, hpevs]
    cases hQ : (postStages r e (stCompleted (preStages r e (sessionIdOf r e)
        (initSt r (sessionIdOf r e))).st).st).err with
    | none => simp [List.filter_append, hpre _, hcompleted, herr]
    | some m => simp [List.filter_append, hpre _, hcompleted, herr]

theorem stAutoCommit_disabled_evs (r : Request) (e : Env1) (s : St)
    (h : r.github = none ∨ r.autoCommit = some false) :
    (stAutoCommit r e s).evs = [] := by
  unfold stAutoCommit
  rcases h with h | h <;> simp [h]

theorem stAutoCommit_noChanges_evs (r : Request) (e : Env1) (s : St)
    (hok : e.hasChangesOk = true) (hch : e.hasChanges = false) :
    (stAutoCommit r e s).evs = [] := by
  unfold stAutoCommit autoCommitInner
  simp [hok, hch]

/-- Under either zero-condition of the claim, the auto-commit stage (and hence
every stage before `completed`) emits no commit-progress event. -/
theorem preStages_cp_clean (r : Request) (e : Env1) (sid : String)
    (h : (r.github = none ∨ r.autoCommit = some false) ∨
         (e.hasChangesOk = true ∧ e.hasChanges = false)) :
    cleanFor isCommitProgress (preStages r e sid) := by
  have hac : cleanFor isCommitProgress (stAutoCommit r e) := by
    intro s
    rcases h with h | ⟨hok, hch⟩
    · rw [stAutoCommit_disabled_evs r e s h]; rfl
    · rw [stAutoCommit_noChanges_evs r e s hok hch]; rfl
  unfold preStages
  refine cleanFor_seqS (stValidate_clean r _) ?_
  refine cleanFor_seqS (stDownload_clean e _) ?_
  refine cleanFor_seqS (stLoadMeta_clean r e sid _) ?_
  refine cleanFor_seqS (stConnected_clean r sid _ (by intro _ _; rfl)) ?_
  refine cleanFor_seqS (stNaming_clean r e sid _ (by intro _ _; rfl)) ?_
  refine cleanFor_seqS
    (stPull_clean r e sid _ (by intro _; rfl) (by intro _; rfl) (by intro _; rfl)) ?_
  refine cleanFor_seqS (stDbActive_clean r e _) ?_
  refine cleanFor_seqS (stProvider_clean r e _ (by intro _; rfl) (by intro _; rfl)) ?_
  exact cleanFor_seqS hac (stUpload_clean e _)

/-- A new-session repository job whose credential yields no API key. -/
def reqGhNoKey : Request :=
  { userRequest := "do x"
    codingAssistantProvider := "claude-code"
    codingAssistantAuthentication := "not-a-key"
    github := some { repoUrl := "https://github.com/a/b" } }

/-- The workspace holds uncommitted changes after execution. -/
def envChanges : Env1 := { hasChanges := true }

/-- C5 (counterexample): auto-commit runs (repository job, flag defaulted) and
uncommitted changes exist, yet only TWO commit-progress events are emitted —
`analyzing` and `generating_message` — because no API key can be extracted
from the credential, and the source then silently skips the `committing` and
`completed` stages (the job still completes). -/
theorem c5_counterexample :
    (execute reqGhNoKey envChanges).events.filter isCommitProgress =
      [Ev.commitProgress "analyzing" "Analyzing changes for auto-commit..." none none,
       Ev.commitProgress "generating_message" "Generating commit message..." none none] ∧
    (execute reqGhNoKey envChanges).events.getLast? = some Ev.completed := by
  decide

/-- C5 (amended): with auto-commit disabled (no repository spec, or the flag
explicitly false) or with no uncommitted changes, zero commit-progress events
are emitted; with auto-commit active, uncommitted changes present, an API key
extractable from the credential and every stage succeeding, exactly the four
ordered events `analyzing`, `generating_message`, `committing`, `completed`
are emitted, the last carrying the commit hash.  (When no API key is
extractable, only the first two are emitted — see the counterexample.) -/
theorem c5_amended (r : Request) (e : Env1) :
    ((r.github = none ∨ r.autoCommit = some false) →
        (execute r e).events.filter isCommitProgress = []) ∧
    ((e.hasChangesOk = true ∧ e.hasChanges = false) →
        (execute r e).events.filter isCommitProgress = []) ∧
    (∀ gh pr k,
        r.github = some gh → r.resumeSessionId = none →
        validateRequest r = none →
        (r.autoCommit == some false) = false →
        e.downloadOk = true → e.sessionExisted = false → e.nameGenOk = true →
        extractApiKey r.codingAssistantAuthentication e.authParsed = some k →
        pullRepository e.git gh.repoUrl gh.branch gh.directory gh.accessToken
          (sessionRoot (sessionIdOf r e)) = .ok pr →
        e.branchExists = true →
        e.dbActiveOk = true → e.providerOk = true →
        e.hasChangesOk = true → e.hasChanges = true → e.statusOk = true → e.diffOk = true →
        e.commitOk = true →
        (execute r e).events.filter isCommitProgress =
          [Ev.commitProgress "analyzing" "Analyzing changes for auto-commit..." none none,
           Ev.commitProgress "generating_message" "Generating commit message..." none none,
           Ev.commitProgress "committing" "Creating commit..."
             (some (generateCommitMessage e.llmCommitOk e.llmCommitMsg)) none,
           Ev.commitProgress "completed" "Changes committed successfully"
             (some (generateCommitMessage e.llmCommitOk e.llmCommitMsg))
             (some e.commitHash)]) := by
  refine ⟨?_, ?_, ?_⟩
  · intro h
    exact execute_filter_nil r e _ (preStages_cp_clean r e _ (Or.inl h)) rfl
      (by intro _ _; rfl)
  · intro h
    exact execute_filter_nil r e _ (preStages_cp_clean r e _ (Or.inr h)) rfl
      (by intro _ _; rfl)
  · intro gh pr k hgh hres hvalid hac hdl hse hng hkey hpull hbe hdba hpok hchok hch hst
      hdf hcm
    have hassist : ∀ l : List Nat, (l.map Ev.assistant).filter isCommitProgress = [] :=
      filter_map_assistant _ (fun _ => rfl)
    unfold execute tryPhase preStages postStages
    rcases hdb : r.database with _ | d <;>
      cases hup : e.uploadOk <;>
      cases hdbc : e.dbCompletedOk <;>
      simp [seqS, stValidate, stDownload, stLoadMeta, stConnected, stNaming, stPull,
        stDbActive, stProvider, stAutoCommit, autoCommitInner, branchCreationEvs, stUpload,
        stCompleted, stDbCompleted, stCleanup, initSt, hassist,
        hvalid, hdl, hse, hng, hgh, hres, hkey, hpull, hac, hbe, hdba, hpok, hchok, hch,
        hst, hdf, hcm, hdb, hup, hdbc, List.filter_append, isCommitProgress]

/-- A new-session repository job with a plain API-key credential. -/
def reqGh : Request :=
  { userRequest := "do x"
    codingAssistantProvider := "claude-code"
    codingAssistantAuthentication := "sk-ant-key"
    github := some { repoUrl := "https://github.com/a/b" } }

/-- Changes present; the generated branch already exists. -/
def env5 : Env1 := { hasChanges := true, branchExists := true }

/-- Witness for `c5_amended` (the four-event case) at a concrete job. -/
theorem c5_amended_witness :
    (reqGh.github = some { repoUrl := "https://github.com/a/b" } ∧
     reqGh.resumeSessionId = none ∧
     validateRequest reqGh = none ∧
     extractApiKey reqGh.codingAssistantAuthentication env5.authParsed = some "sk-ant-key" ∧
     pullRepository env5.git "https://github.com/a/b" none none none
       (sessionRoot (sessionIdOf reqGh env5)) =
       .ok { targetPath := "/tmp/session-new-session/b", wasCloned := true, branch := "main" }) ∧
    (execute reqGh env5).events.filter isCommitProgress =
      [Ev.commitProgress "analyzing" "Analyzing changes for auto-commit..." none none,
       Ev.commitProgress "generating_message" "Generating commit message..." none none,
       Ev.commitProgress "committing" "Creating commit..."
         (some (generateCommitMessage env5.llmCommitOk env5.llmCommitMsg)) none,
       Ev.commitProgress "completed" "Changes committed successfully"
         (some (generateCommitMessage env5.llmCommitOk env5.llmCommitMsg))
         (some env5.commitHash)] :=
  ⟨⟨rfl, rfl, by decide, by decide, by rfl⟩,
    (c5_amended reqGh env5).2.2 { repoUrl := "https://github.com/a/b" }
      { targetPath := "/tmp/session-new-session/b", wasCloned := true, branch := "main" }
      "sk-ant-key" rfl rfl (by decide) rfl rfl rfl rfl (by decide) (by rfl) rfl rfl rfl
      rfl rfl rfl rfl rfl⟩

/-! ## Claim C6 -/

/-- A request whose user text is whitespace only (truthy for the server's
falsiness check, blank for the orchestrator's validation). -/
def reqWsOnly : Request :=
  { userRequest := " "
    codingAssistantProvider := "claude-code"
    codingAssistantAuthentication := "sk-ant-key" }

/-- C6 (counterexample): a whitespace-only user request passes the HTTP
handler's falsiness check, reaches the orchestrator, and fails validation
before any workspace creation — but the emitted error is classified
`internal_error`, not `invalid_request` (`getErrorCode` has no branch for the
"… is required" messages). -/
theorem c6_counterexample :
    handleExecute {} reqWsOnly {} = ServerOutcome.stream (execute reqWsOnly {}) ∧
    (execute reqWsOnly {}).events =
      [Ev.error "userRequest is required" "internal_error"] ∧
    (execute reqWsOnly {}).st.eff.workspaceCreated = false ∧
    (execute reqWsOnly {}).st.eff.downloaded = false := by
  decide

/-- A request that fails `validateRequest` emits exactly the one classified
`error` event and performs no storage download and no workspace creation. -/
theorem execute_validation_error (r : Request) (e : Env1) (msg : String)
    (hv : validateRequest r = some msg) :
    (execute r e).events = [Ev.error msg (getErrorCode msg)] ∧
    (execute r e).st.eff.workspaceCreated = false ∧
    (execute r e).st.eff.downloaded = false := by
  have hP : (preStages r e (sessionIdOf r e) (initSt r (sessionIdOf r e))).err =
      some msg := by
    unfold preStages
    rw [seqS_err_some _ _ _ (show (stValidate r (initSt r (sessionIdOf r e))).err =
      some msg from hv)]
    exact hv
  have ht : tryPhase r e = preStages r e (sessionIdOf r e) (initSt r (sessionIdOf r e)) := by
    unfold tryPhase
    exact seqS_err_some _ _ _ hP
  have hpre : preStages r e (sessionIdOf r e) (initSt r (sessionIdOf r e)) =
      stValidate r (initSt r (sessionIdOf r e)) := by
    unfold preStages
    exact seqS_err_some _ _ _ hv
  unfold execute
  rw [ht, hpre]
  simp only [stValidate, hv]
  exact ⟨rfl, rfl, rfl⟩

/-- C6 (amended): a missing (empty) user text, provider or credential — with
no environment fallback — is rejected by the HTTP handler with a 400
`invalid_request` before the orchestrator runs, so no workspace is created;
a present-but-blank (whitespace-only) user text, provider, or credential
instead fails the orchestrator's validation, still before any storage
download or workspace creation, but its error event is classified
`internal_error`. -/
theorem c6_amended (srv : ServerEnv) (r : Request) (e : Env1) :
    (r.userRequest = "" →
      handleExecute srv r e =
        .badRequest "invalid_request" "Missing required field: userRequest") ∧
    (srv.defaultProvider = none → r.userRequest ≠ "" →
      (r.codingAssistantProvider = "" ∨ r.codingAssistantProvider = "FROM_ENV") →
      handleExecute srv r e = .badRequest "invalid_request"
        "Missing required field: codingAssistantProvider (not in request or environment)") ∧
    (srv.defaultAuth = none → r.userRequest ≠ "" →
      r.codingAssistantProvider ≠ "" → r.codingAssistantProvider ≠ "FROM_ENV" →
      (r.codingAssistantAuthentication = "" ∨ r.codingAssistantAuthentication = "FROM_ENV") →
      handleExecute srv r e = .badRequest "invalid_request"
        "Missing required field: codingAssistantAuthentication (not in request or environment)") ∧
    (isBlank r.userRequest = true →
      (execute r e).events = [Ev.error "userRequest is required" "internal_error"] ∧
      (execute r e).st.eff.workspaceCreated = false ∧
      (execute r e).st.eff.downloaded = false) ∧
    (isBlank r.userRequest = false → isBlank r.codingAssistantProvider = true →
      (execute r e).events =
        [Ev.error "codingAssistantProvider is required" "internal_error"] ∧
      (execute r e).st.eff.workspaceCreated = false ∧
      (execute r e).st.eff.downloaded = false) ∧
    (isBlank r.userRequest = false → isBlank r.codingAssistantProvider = false →
      isBlank r.codingAssistantAuthentication = true →
      (execute r e).events =
        [Ev.error "codingAssistantAuthentication is required" "internal_error"] ∧
      (execute r e).st.eff.workspaceCreated = false ∧
      (execute r e).st.eff.downloaded = false) := by
  refine ⟨?_, ?_, ?_, ?_, ?_, ?_⟩
  · intro h
    simp [handleExecute, h]
  · intro hd hu hp
    rcases hp with hp | hp <;> simp [handleExecute, hd, hu, hp]
  · intro hd hu hp1 hp2 ha
    rcases ha with ha | ha <;> simp [handleExecute, hd, hu, hp1, hp2, ha]
  · intro hb
    have hv : validateRequest r = some "userRequest is required" := by
      unfold validateRequest
      simp [hb]
    obtain ⟨h1, h2, h3⟩ := execute_validation_error r e _ hv
    rw [show getErrorCode "userRequest is required" = "internal_error" from by decide] at h1
    exact ⟨h1, h2, h3⟩
  · intro hub hpb
    have hv : validateRequest r = some "codingAssistantProvider is required" := by
      unfold validateRequest
      simp [hub, hpb]
    obtain ⟨h1, h2, h3⟩ := execute_validation_error r e _ hv
    rw [show getErrorCode "codingAssistantProvider is required" = "internal_error" from
      by decide] at h1
    exact ⟨h1, h2, h3⟩
  · intro hub hpb hab
    have hv : validateRequest r = some "codingAssistantAuthentication is required" := by
      unfold validateRequest
      simp [hub, hpb, hab]
    obtain ⟨h1, h2, h3⟩ := execute_validation_error r e _ hv
    rw [show getErrorCode "codingAssistantAuthentication is required" = "internal_error" from
      by decide] at h1
    exact ⟨h1, h2, h3⟩

/-- A request with an empty (missing) user text. -/
def reqEmpty : Request :=
  { userRequest := ""
    codingAssistantProvider := "claude-code"
    codingAssistantAuthentication := "sk-ant-key" }

/-- A request whose provider id is whitespace only. -/
def reqWsProv : Request :=
  { userRequest := "do x"
    codingAssistantProvider := " "
    codingAssistantAuthentication := "sk-ant-key" }

/-- A request whose credential is whitespace only. -/
def reqWsAuth : Request :=
  { userRequest := "do x"
    codingAssistantProvider := "claude-code"
    codingAssistantAuthentication := " " }

theorem c6_amended_witness :
    (reqEmpty.userRequest = "" ∧ isBlank reqWsOnly.userRequest = true ∧
     isBlank reqWsProv.codingAssistantProvider = true ∧
     isBlank reqWsAuth.codingAssistantAuthentication = true) ∧
    (handleExecute {} reqEmpty {} =
        .badRequest "invalid_request" "Missing required field: userRequest" ∧
     ((execute reqWsOnly {}).events =
        [Ev.error "userRequest is required" "internal_error"] ∧
      (execute reqWsOnly {}).st.eff.workspaceCreated = false ∧
      (execute reqWsOnly {}).st.eff.downloaded = false) ∧
     ((execute reqWsProv {}).events =
        [Ev.error "codingAssistantProvider is required" "internal_error"] ∧
      (execute reqWsProv {}).st.eff.workspaceCreated = false ∧
      (execute reqWsProv {}).st.eff.downloaded = false) ∧
     ((execute reqWsAuth {}).events =
        [Ev.error "codingAssistantAuthentication is required" "internal_error"] ∧
      (execute reqWsAuth {}).st.eff.workspaceCreated = false ∧
      (execute reqWsAuth {}).st.eff.downloaded = false)) :=
  ⟨⟨rfl, by decide, by decide, by decide⟩,
    ⟨(c6_amended {} reqEmpty {}).1 rfl,
     (c6_amended {} reqWsOnly {}).2.2.2.1 (by decide),
     (c6_amended {} reqWsProv {}).2.2.2.2.1 (by decide) (by decide),
     (c6_amended {} reqWsAuth {}).2.2.2.2.2 (by decide) (by decide) (by decide)⟩⟩

/-! ## Claim C7 -/

/-- The unified-worker stages after session resolution never change the
workspace path, the metadata, or the record of metadata saves. -/
def preservesCore (f : StW → StepG StW) : Prop :=
  ∀ s, (f s).st.workspacePath = s.workspacePath ∧ (f s).st.metadata = s.metadata ∧
       (f s).st.savedMetas = s.savedMetas

theorem preservesCore_seqS {f g : StW → StepG StW}
    (hf : preservesCore f) (hg : preservesCore g) : preservesCore (seqS f g) := by
  intro s
  cases h : (f s).err with
  | some m => rw [seqS_err_some _ _ _ h]; exact hf s
  | none =>
    rw [seqS_err_none _ _ _ h]
    obtain ⟨h1, h2, h3⟩ := hf s
    obtain ⟨g1, g2, g3⟩ := hg (f s).st
    exact ⟨g1.trans h1, g2.trans h2, g3.trans h3⟩

theorem uwConnected_core (r : Request) (sid : String) : preservesCore (uwConnected r sid) :=
  fun _ => ⟨rfl, rfl, rfl⟩

theorem uwPull_core (r : Request) (e : Env2) (sid : String)
    (hres : r.resumeSessionId = some sid) : preservesCore (uwPull r e) := by
  intro s
  rcases hg : r.github with _ | g <;> simp [uwPull, hg, hres]

theorem uwDbActive_core (r : Request) (e : Env2) : preservesCore (uwDbActive r e) := by
  intro s
  rcases hd : r.database with _ | d <;> cases hok : e.dbActiveOk <;>
    simp [uwDbActive, hd, hok]

theorem uwProvider_core (r : Request) (e : Env2) : preservesCore (uwProvider r e) := by
  intro s
  unfold uwProvider
  split <;> exact ⟨rfl, rfl, rfl⟩

theorem uwCompleted_core : preservesCore uwCompleted :=
  fun _ => ⟨rfl, rfl, rfl⟩

theorem uwDbCompleted_core (r : Request) (e : Env2) : preservesCore (uwDbCompleted r e) := by
  intro s
  rcases hd : r.database with _ | d <;> cases hok : e.dbCompletedOk <;>
    simp [uwDbCompleted, hd, hok]

/-- The final state of the unified-worker run is the `try`-phase state, on the
success path and on the error path alike (its catch performs no cleanup). -/
theorem executeUW_st (r : Request) (e : Env2) : (executeUW r e).st = (uwTryPhase r e).st := by
  unfold executeUW
  cases h : (uwTryPhase r e).err <;> simp [h]

def uwNoGithubMsg : String :=
  "Cannot resume session: workspace missing and no GitHub metadata available for recovery. The session workspace may have been pruned."

def uwRecoveryFailMsg (rm : String) : String :=
  strCat "Cannot resume session: workspace missing and recovery failed. Original error: " rm

/-- When validation passes and session resolution raises, the run is exactly:
the resolution stage's events, then one `error` event, with the resolution
stage's state. -/
theorem executeUW_resolve_fatal (r : Request) (e : Env2) (sid : String)
    (hvalid : validateRequestUW r = none)
    (hsid : sessionIdOfW r e = sid)
    (msg : String) (evs0 : List Ev) (s1 : StW)
    (hcalc : uwResolve r e sid (initStW r sid) =
      { evs := evs0, st := s1, err := some msg }) :
    (executeUW r e).events = evs0 ++ [Ev.error msg (getErrorCode msg)] ∧
    (executeUW r e).st = s1 := by
  unfold executeUW uwTryPhase
  rw [hsid]
  rw [seqS_err_none _ _ _ (show (uwValidate r (initStW r sid)).err = none from hvalid)]
  rw [show (uwValidate r (initStW r sid)).st = initStW r sid from rfl]
  rw [seqS_err_some _ _ _ (show (uwResolve r e sid (initStW r sid)).err = some msg by
    rw [hcalc])]
  rw [hcalc]
  simp
  exact rfl

/-- C7: resuming a repository session whose local workspace is missing.  With
repository info recorded and the re-clone succeeding, the resulting workspace
path is the session root joined with the recorded relative cloned path, the
in-memory repository branch becomes the branch the clone wrapper resolved, and
the metadata is re-saved exactly when that branch differs from the recorded
one.  With no repository info recorded, or with the re-clone failing, the job
fails fatally (the spec's `WorkspaceRecoveryFailed` class) before the
agent-execution capability is invoked. -/
theorem c7_recovery (r : Request) (e : Env2) (sid : String) (m : SessionMetadata)
    (hres : r.resumeSessionId = some sid)
    (hvalid : validateRequestUW r = none)
    (hdir : e.sessionDirExists = true)
    (hmeta : e.loadedMeta = some m)
    (hws : e.execWsExists = false) :
    (m.github = none →
      (executeUW r e).events = [Ev.error uwNoGithubMsg (getErrorCode uwNoGithubMsg)] ∧
      (executeUW r e).st.eff.providerInvoked = false) ∧
    (∀ g, m.github = some g → g.clonedPath ≠ "" →
      e.git.repoExistsAtTarget = false →
      (e.git.cloneOk = false →
        (executeUW r e).events =
          [Ev.message (strCat "Workspace missing, recovering from GitHub: " g.repoUrl),
           Ev.error (uwRecoveryFailMsg e.git.cloneErrMsg)
             (getErrorCode (uwRecoveryFailMsg e.git.cloneErrMsg))] ∧
        (executeUW r e).st.eff.providerInvoked = false) ∧
      (e.git.cloneOk = true →
        (executeUW r e).st.workspacePath = pathJoin (uwRoot sid) g.clonedPath ∧
        (executeUW r e).st.metadata.github =
          some { g with branch := orDefault (some g.branch) "main" } ∧
        (orDefault (some g.branch) "main" = g.branch →
          (executeUW r e).st.savedMetas = []) ∧
        (orDefault (some g.branch) "main" ≠ g.branch →
          (executeUW r e).st.savedMetas =
            [{ m with github := some { g with branch := orDefault (some g.branch) "main" } }]))) := by
  have hsid : sessionIdOfW r e = sid := by unfold sessionIdOfW; rw [hres]
  refine ⟨?_, ?_⟩
  · intro hgn
    have hcalc : uwResolve r e sid (initStW r sid) =
        { evs := []
          st := { initStW r sid with
                  metadata := m
                  workspacePath := getExecutionWorkspace sid m }
          err := some uwNoGithubMsg } := by
      unfold uwResolve
      rw [hres]
      simp [hdir, hmeta, hws, hgn, uwNoGithubMsg]
    obtain ⟨hev, hst⟩ := executeUW_resolve_fatal r e sid hvalid hsid _ _ _ hcalc
    rw [hev, hst]
    exact ⟨rfl, rfl⟩
  · intro g hg hcp hre
    have hname : (if g.clonedPath = "" then extractRepoName g.repoUrl
        else Except.ok g.clonedPath) = Except.ok g.clonedPath := by
      rw [if_neg hcp]
    constructor
    · intro hcf
      have hcalc : uwResolve r e sid (initStW r sid) =
          { evs := [Ev.message (strCat "Workspace missing, recovering from GitHub: " g.repoUrl)]
            st := { initStW r sid with
                    metadata := m
                    workspacePath := getExecutionWorkspace sid m }
            err := some (uwRecoveryFailMsg e.git.cloneErrMsg) } := by
        unfold uwResolve
        rw [hres]
        simp [hdir, hmeta, hws, hg, pullRepository, hname, hre, cloneRepository, hcf,
          uwRecoveryFailMsg]
      obtain ⟨hev, hst⟩ := executeUW_resolve_fatal r e sid hvalid hsid _ _ _ hcalc
      rw [hev, hst]
      exact ⟨rfl, rfl⟩
    · intro hcok
      have hrest : preservesCore (seqS (uwConnected r sid) (seqS (uwPull r e)
          (seqS (uwDbActive r e) (seqS (uwProvider r e)
            (seqS uwCompleted (uwDbCompleted r e)))))) := by
        refine preservesCore_seqS (uwConnected_core r sid) ?_
        refine preservesCore_seqS (uwPull_core r e sid hres) ?_
        refine preservesCore_seqS (uwDbActive_core r e) ?_
        refine preservesCore_seqS (uwProvider_core r e) ?_
        exact preservesCore_seqS uwCompleted_core (uwDbCompleted_core r e)
      by_cases hb : orDefault (some g.branch) "main" = g.branch
      · have hcalc : uwResolve r e sid (initStW r sid) =
            { evs := [Ev.message (strCat "Workspace missing, recovering from GitHub: " g.repoUrl),
                Ev.pullProgress (strCat "Workspace recovered from GitHub (branch: "
                  (strCat (orDefault (some g.branch) "main") ")"))]
              st := { initStW r sid with
                      metadata := m
                      workspacePath := pathJoin (uwRoot sid) g.clonedPath }
              err := none } := by
          unfold uwResolve
          rw [hres]
          simp [hdir, hmeta, hws, hg, pullRepository, hname, hre, cloneRepository, hcok, hb]
        have hcore := hrest ({ initStW r sid with
          metadata := m
          workspacePath := pathJoin (uwRoot sid) g.clonedPath })
        have ht : (uwTryPhase r e).st = (seqS (uwConnected r sid) (seqS (uwPull r e)
            (seqS (uwDbActive r e) (seqS (uwProvider r e)
              (seqS uwCompleted (uwDbCompleted r e)))))
            ({ initStW r sid with
               metadata := m
               workspacePath := pathJoin (uwRoot sid) g.clonedPath })).st := by
          unfold uwTryPhase
          rw [hsid]
          rw [seqS_err_none _ _ _ (show (uwValidate r (initStW r sid)).err = none from hvalid)]
          rw [show (uwValidate r (initStW r sid)).st = initStW r sid from rfl]
          rw [seqS_err_none _ _ _ (show (uwResolve r e sid (initStW r sid)).err = none by
            rw [hcalc])]
          rw [hcalc]
        rw [executeUW_st, ht]
        refine ⟨hcore.1.trans rfl, ?_, fun _ => hcore.2.2.trans rfl, fun hne => absurd hb hne⟩
        rw [hcore.2.1]
        show m.github = some { g with branch := orDefault (some g.branch) "main" }
        rw [hg, hb]
      · have hcalc : uwResolve r e sid (initStW r sid) =
            { evs := [Ev.message (strCat "Workspace missing, recovering from GitHub: " g.repoUrl),
                Ev.pullProgress (strCat "Workspace recovered from GitHub (branch: "
                  (strCat (orDefault (some g.branch) "main") ")"))]
              st := { initStW r sid with
                      metadata := { m with github := some { g with branch := orDefault (some g.branch) "main" } }
                      workspacePath := pathJoin (uwRoot sid) g.clonedPath
                      savedMetas := [{ m with github := some { g with branch := orDefault (some g.branch) "main" } }] }
              err := none } := by
          unfold uwResolve
          rw [hres]
          simp [hdir, hmeta, hws, hg, pullRepository, hname, hre, cloneRepository, hcok, hb,
            initStW]
        have hcore := hrest ({ initStW r sid with
          metadata := { m with github := some { g with branch := orDefault (some g.branch) "main" } }
          workspacePath := pathJoin (uwRoot sid) g.clonedPath
          savedMetas := [{ m with github := some { g with branch := orDefault (some g.branch) "main" } }] })
        have ht : (uwTryPhase r e).st = (seqS (uwConnected r sid) (seqS (uwPull r e)
            (seqS (uwDbActive r e) (seqS (uwProvider r e)
              (seqS uwCompleted (uwDbCompleted r e)))))
            ({ initStW r sid with
               metadata := { m with github := some { g with branch := orDefault (some g.branch) "main" } }
               workspacePath := pathJoin (uwRoot sid) g.clonedPath
               savedMetas := [{ m with github := some { g with branch := orDefault (some g.branch) "main" } }] })).st := by
          unfold uwTryPhase
          rw [hsid]
          rw [seqS_err_none _ _ _ (show (uwValidate r (initStW r sid)).err = none from hvalid)]
          rw [show (uwValidate r (initStW r sid)).st = initStW r sid from rfl]
          rw [seqS_err_none _ _ _ (show (uwResolve r e sid (initStW r sid)).err = none by
            rw [hcalc])]
          rw [hcalc]
        rw [executeUW_st, ht]
        refine ⟨hcore.1.trans rfl, ?_, fun hbe => absurd hbe hb, fun _ => hcore.2.2.trans rfl⟩
        rw [hcore.2.1]

/-- A session whose metadata records repository info. -/
def metaRepo : SessionMetadata :=
  { sessionId := "s1"
    provider := "claude-code"
    github := some { repoUrl := "https://github.com/a/b", branch := "dev", clonedPath := "b" } }

/-- Resume environment: the session directory exists on the volume, the
execution workspace does not, and git can clone. -/
def envRecovery : Env2 :=
  { sessionDirExists := true
    loadedMeta := some metaRepo
    execWsExists := false
    git := { repoExistsAtTarget := false } }

/-- The repository info with the branch resolved by the recovery clone. -/
def gDevResolved : GithubMeta :=
  { repoUrl := "https://github.com/a/b", branch := orDefault (some "dev") "main", branchName := none, clonedPath := "b" }

/-- Witness for `c7_recovery` at a concrete resume with successful re-clone. -/
theorem c7_recovery_witness :
    (reqResume.resumeSessionId = some "s1" ∧ validateRequestUW reqResume = none ∧
     envRecovery.sessionDirExists = true ∧ envRecovery.loadedMeta = some metaRepo ∧
     envRecovery.execWsExists = false ∧
     metaRepo.github =
       some { repoUrl := "https://github.com/a/b", branch := "dev", clonedPath := "b" } ∧
     ("b" : String) ≠ "" ∧ envRecovery.git.repoExistsAtTarget = false ∧
     envRecovery.git.cloneOk = true) ∧
    ((executeUW reqResume envRecovery).st.workspacePath = pathJoin (uwRoot "s1") "b" ∧
     (executeUW reqResume envRecovery).st.metadata.github = some gDevResolved ∧
     (orDefault (some "dev") "main" = "dev" →
       (executeUW reqResume envRecovery).st.savedMetas = []) ∧
     (orDefault (some "dev") "main" ≠ "dev" →
       (executeUW reqResume envRecovery).st.savedMetas =
         [{ metaRepo with github := some gDevResolved }])) :=
  ⟨⟨rfl, by decide, rfl, rfl, rfl, rfl, by decide, rfl, rfl⟩,
    ((c7_recovery reqResume envRecovery "s1" metaRepo rfl (by decide) rfl rfl rfl).2
      { repoUrl := "https://github.com/a/b", branch := "dev", clonedPath := "b" }
      rfl (by decide) rfl).2 rfl⟩

/-! ## Claim C8 -/

/-- A commit-progress event whose stage is `completed`. -/
def isCommitCompleted : Ev → Bool
  | .commitProgress st _ _ _ => st == "completed"
  | _ => false

/-- A repository job whose credential parses as JSON but yields no API key. -/
def reqGhOauthNoKey : Request :=
  { userRequest := "do x"
    codingAssistantProvider := "claude-code"
    codingAssistantAuthentication := "oauth-blob"
    github := some { repoUrl := "https://github.com/a/b" } }

/-- Changes present; the credential's JSON parse carries neither an OAuth
access token nor an `apiKey` field. -/
def envChangesNoKey : Env1 :=
  { hasChanges := true, authParsed := some { oauthAccessToken := none, apiKey := none } }

/-- C8 (counterexample): when the message-generation stage fails because no
API key can be extracted from the credential, the job's outcome is indeed
unaffected (its terminal event is `completed`), but NO stage-`completed`
commit-progress event is emitted at all — the stage chain just stops after
`generating_message`, refuting "a commit-progress event with stage
'completed' noting the non-critical failure is still emitted". -/
theorem c8_counterexample :
    (execute reqGhOauthNoKey envChangesNoKey).events.filter isCommitProgress =
      [Ev.commitProgress "analyzing" "Analyzing changes for auto-commit..." none none,
       Ev.commitProgress "generating_message" "Generating commit message..." none none] ∧
    (execute reqGhOauthNoKey envChangesNoKey).events.filter isCommitCompleted = [] ∧
    (execute reqGhOauthNoKey envChangesNoKey).events.filter isTerminal = [Ev.completed] := by
  decide

/-- C8 (amended): a THROWN failure inside the auto-commit stages is caught and
answered exactly as the claim says: the job's terminal event is still
`completed`, and a stage-`completed` commit-progress event noting the
non-critical failure is emitted.  Shown for a change-detection failure (first
conjunct), for a commit failure after the first three stages (second
conjunct), and for a status/diff failure after the `analyzing` event (third
conjunct); an LLM failure never throws (it is absorbed by the fallback
message), and a missing credential silently ends the chain — see the
counterexample. -/
theorem c8_amended (r : Request) (e : Env1) :
    (∀ gh pr,
        r.github = some gh → r.resumeSessionId = none →
        validateRequest r = none → (r.autoCommit == some false) = false →
        e.downloadOk = true → e.sessionExisted = false → e.nameGenOk = true →
        pullRepository e.git gh.repoUrl gh.branch gh.directory gh.accessToken
          (sessionRoot (sessionIdOf r e)) = .ok pr →
        e.branchExists = true → e.dbActiveOk = true → e.providerOk = true →
        e.uploadOk = true → e.dbCompletedOk = true →
        e.hasChangesOk = false →
        (execute r e).events.filter isCommitProgress =
          [Ev.commitProgress "completed" "Auto-commit failed (non-critical)" none none] ∧
        (execute r e).events.filter isTerminal = [Ev.completed]) ∧
    (∀ gh pr k,
        r.github = some gh → r.resumeSessionId = none →
        validateRequest r = none → (r.autoCommit == some false) = false →
        e.downloadOk = true → e.sessionExisted = false → e.nameGenOk = true →
        extractApiKey r.codingAssistantAuthentication e.authParsed = some k →
        pullRepository e.git gh.repoUrl gh.branch gh.directory gh.accessToken
          (sessionRoot (sessionIdOf r e)) = .ok pr →
        e.branchExists = true → e.dbActiveOk = true → e.providerOk = true →
        e.uploadOk = true → e.dbCompletedOk = true →
        e.hasChangesOk = true → e.hasChanges = true → e.statusOk = true → e.diffOk = true →
        e.commitOk = false →
        (execute r e).events.filter isCommitProgress =
          [Ev.commitProgress "analyzing" "Analyzing changes for auto-commit..." none none,
           Ev.commitProgress "generating_message" "Generating commit message..." none none,
           Ev.commitProgress "committing" "Creating commit..."
             (some (generateCommitMessage e.llmCommitOk e.llmCommitMsg)) none,
           Ev.commitProgress "completed" "Auto-commit failed (non-critical)" none none] ∧
        (execute r e).events.filter isTerminal = [Ev.completed]) ∧
    (∀ gh pr,
        r.github = some gh → r.resumeSessionId = none →
        validateRequest r = none → (r.autoCommit == some false) = false →
        e.downloadOk = true → e.sessionExisted = false → e.nameGenOk = true →
        pullRepository e.git gh.repoUrl gh.branch gh.directory gh.accessToken
          (sessionRoot (sessionIdOf r e)) = .ok pr →
        e.branchExists = true → e.dbActiveOk = true → e.providerOk = true →
        e.uploadOk = true → e.dbCompletedOk = true →
        e.hasChangesOk = true → e.hasChanges = true →
        (e.statusOk = false ∨ (e.statusOk = true ∧ e.diffOk = false)) →
        (execute r e).events.filter isCommitProgress =
          [Ev.commitProgress "analyzing" "Analyzing changes for auto-commit..." none none,
           Ev.commitProgress "completed" "Auto-commit failed (non-critical)" none none] ∧
        (execute r e).events.filter isTerminal = [Ev.completed]) := by
  have hassist1 : ∀ l : List Nat, (l.map Ev.assistant).filter isCommitProgress = [] :=
    filter_map_assistant _ (fun _ => rfl)
  have hassist2 : ∀ l : List Nat, (l.map Ev.assistant).filter isTerminal = [] :=
    filter_map_assistant _ (fun _ => rfl)
  refine ⟨?_, ?_, ?_⟩
  · intro gh pr hgh hres hvalid hac hdl hse hng hpull hbe hdba hpok hup hdbc hchok
    unfold execute tryPhase preStages postStages
    rcases hdb : r.database with _ | d <;>
      rcases hk : extractApiKey r.codingAssistantAuthentication e.authParsed with _ | k <;>
      simp [seqS, stValidate, stDownload, stLoadMeta, stConnected, stNaming, stPull,
        stDbActive, stProvider, stAutoCommit, autoCommitInner, branchCreationEvs, stUpload,
        stCompleted, stDbCompleted, stCleanup, initSt, hassist1, hassist2,
        hvalid, hdl, hse, hng, hgh, hres, hpull, hac, hbe, hdba, hpok, hup, hdbc, hchok,
        hdb, hk, List.filter_append, isCommitProgress, isTerminal]
  · intro gh pr k hgh hres hvalid hac hdl hse hng hkey hpull hbe hdba hpok hup hdbc hchok
      hch hst hdf hcm
    unfold execute tryPhase preStages postStages
    rcases hdb : r.database with _ | d <;>
      simp [seqS, stValidate, stDownload, stLoadMeta, stConnected, stNaming, stPull,
        stDbActive, stProvider, stAutoCommit, autoCommitInner, branchCreationEvs, stUpload,
        stCompleted, stDbCompleted, stCleanup, initSt, hassist1, hassist2,
        hvalid, hdl, hse, hng, hgh, hres, hkey, hpull, hac, hbe, hdba, hpok, hup, hdbc,
        hchok, hch, hst, hdf, hcm, hdb, List.filter_append, isCommitProgress, isTerminal]
  · intro gh pr hgh hres hvalid hac hdl hse hng hpull hbe hdba hpok hup hdbc hchok hch hsd
    unfold execute tryPhase preStages postStages
    rcases hsd with hst | ⟨hst, hdf⟩
    · rcases hdb : r.database with _ | d <;>
        rcases hk : extractApiKey r.codingAssistantAuthentication e.authParsed with _ | k <;>
        simp [seqS, stValidate, stDownload, stLoadMeta, stConnected, stNaming, stPull,
          stDbActive, stProvider, stAutoCommit, autoCommitInner, branchCreationEvs, stUpload,
          stCompleted, stDbCompleted, stCleanup, initSt, hassist1, hassist2,
          hvalid, hdl, hse, hng, hgh, hres, hpull, hac, hbe, hdba, hpok, hup, hdbc,
          hchok, hch, hst, hdb, hk, List.filter_append, isCommitProgress, isTerminal]
    · rcases hdb : r.database with _ | d <;>
        rcases hk : extractApiKey r.codingAssistantAuthentication e.authParsed with _ | k <;>
        simp [seqS, stValidate, stDownload, stLoadMeta, stConnected, stNaming, stPull,
          stDbActive, stProvider, stAutoCommit, autoCommitInner, branchCreationEvs, stUpload,
          stCompleted, stDbCompleted, stCleanup, initSt, hassist1, hassist2,
          hvalid, hdl, hse, hng, hgh, hres, hpull, hac, hbe, hdba, hpok, hup, hdbc,
          hchok, hch, hst, hdf, hdb, hk, List.filter_append, isCommitProgress, isTerminal]

/-- Changes present, the generated branch exists, the commit call throws. -/
def env8 : Env1 :=
  { hasChanges := true, branchExists := true, commitOk := false }

/-- Changes present, the generated branch exists, the status call throws. -/
def env8s : Env1 :=
  { hasChanges := true, branchExists := true, statusOk := false }

/-- Witness for `c8_amended` (the commit-failure and status-failure
conjuncts) at concrete jobs. -/
theorem c8_amended_witness :
    (reqGh.github = some { repoUrl := "https://github.com/a/b" } ∧
     validateRequest reqGh = none ∧
     extractApiKey reqGh.codingAssistantAuthentication env8.authParsed = some "sk-ant-key" ∧
     env8.commitOk = false ∧ env8s.statusOk = false) ∧
    (((execute reqGh env8).events.filter isCommitProgress =
      [Ev.commitProgress "analyzing" "Analyzing changes for auto-commit..." none none,
       Ev.commitProgress "generating_message" "Generating commit message..." none none,
       Ev.commitProgress "committing" "Creating commit..."
         (some (generateCommitMessage env8.llmCommitOk env8.llmCommitMsg)) none,
       Ev.commitProgress "completed" "Auto-commit failed (non-critical)" none none] ∧
     (execute reqGh env8).events.filter isTerminal = [Ev.completed]) ∧
    ((execute reqGh env8s).events.filter isCommitProgress =
      [Ev.commitProgress "analyzing" "Analyzing changes for auto-commit..." none none,
       Ev.commitProgress "completed" "Auto-commit failed (non-critical)" none none] ∧
     (execute reqGh env8s).events.filter isTerminal = [Ev.completed])) :=
  ⟨⟨rfl, by decide, by decide, rfl, rfl⟩,
    ⟨(c8_amended reqGh env8).2.1 { repoUrl := "https://github.com/a/b" }
      { targetPath := "/tmp/session-new-session/b", wasCloned := true, branch := "main" }
      "sk-ant-key" rfl rfl (by decide) rfl rfl rfl rfl (by decide) (by rfl) rfl rfl rfl
      rfl rfl rfl rfl rfl rfl rfl,
     (c8_amended reqGh env8s).2.2 { repoUrl := "https://github.com/a/b" }
      { targetPath := "/tmp/session-new-session/b", wasCloned := true, branch := "main" }
      rfl rfl (by decide) rfl rfl rfl rfl (by rfl) rfl rfl rfl rfl rfl rfl rfl
      (Or.inl rfl)⟩⟩

/-! ## Claim C9 -/

/-- The repository's actual default branch is `master`. -/
def envMaster : Env1 :=
  { git := { repoExistsAtTarget := false, defaultBranch := "master" } }

/-- C9 (counterexample): materialising a new session by a fresh clone with no
requested branch persists the literal `main` into the metadata, even though
the branch the clone primitive actually resolves (the repository's default) is
`master` — the wrapper hardcodes `branch || 'main'` and never consults the
clone's real result. -/
theorem c9_counterexample :
    ((execute reqGh envMaster).st.metadata.github).map GithubMeta.branch = some "main" ∧
    gitCheckedOutBranch envMaster.git none = "master" ∧
    ¬ (((execute reqGh envMaster).st.metadata.github).map GithubMeta.branch =
        some (gitCheckedOutBranch envMaster.git none)) := by
  decide

/-- C9 (amended): the clone wrapper reports `branch || 'main'` as the resolved
branch whatever the repository's actual default branch is, and after
materialising a new session from a repository spec the persisted branch equals
exactly that reported branch. -/
theorem c9_amended (r : Request) (e : Env1) :
    (∀ (g : GitEnv) (url tp : String) (branch tok : Option String), g.cloneOk = true →
        cloneRepository g url tp branch tok =
          .ok { targetPath := tp, wasCloned := true, branch := orDefault branch "main" }) ∧
    (∀ gh pr,
        r.github = some gh → r.resumeSessionId = none →
        validateRequest r = none →
        e.downloadOk = true → e.sessionExisted = false → e.nameGenOk = true →
        pullRepository e.git gh.repoUrl gh.branch gh.directory gh.accessToken
          (sessionRoot (sessionIdOf r e)) = .ok pr →
        e.dbActiveOk = true → e.providerOk = true →
        e.hasChangesOk = true → e.hasChanges = false →
        e.uploadOk = true → e.dbCompletedOk = true →
        ((execute r e).st.metadata.github).map GithubMeta.branch = some pr.branch) := by
  constructor
  · intro g url tp branch tok h
    unfold cloneRepository
    simp [h]
  · intro gh pr hgh hres hvalid hdl hse hng hpull hdba hpok hchok hch hup hdbc
    unfold execute tryPhase preStages postStages
    rcases hdb : r.database with _ | d <;>
      rcases hk : extractApiKey r.codingAssistantAuthentication e.authParsed with _ | k <;>
      cases hbe : e.branchExists <;>
      cases hbo : e.branchOpsOk <;>
      simp [seqS, stValidate, stDownload, stLoadMeta, stConnected, stNaming, stPull,
        stDbActive, stProvider, stAutoCommit, autoCommitInner, branchCreationEvs, stUpload,
        stCompleted, stDbCompleted, stCleanup, initSt,
        hvalid, hdl, hse, hng, hgh, hres, hpull, hbe, hbo, hdba, hpok, hchok, hch, hup,
        hdbc, hdb, hk]

/-- Witness for `c9_amended` at a concrete fresh clone and job. -/
theorem c9_amended_witness :
    (envMaster.git.cloneOk = true ∧ reqGh.github = some { repoUrl := "https://github.com/a/b" } ∧
     validateRequest reqGh = none) ∧
    (cloneRepository envMaster.git "https://github.com/a/b" "/t/b" none none =
        .ok { targetPath := "/t/b", wasCloned := true, branch := orDefault none "main" } ∧
     ((execute reqGh envMaster).st.metadata.github).map GithubMeta.branch =
        some (PullResult.branch { targetPath := "/tmp/session-new-session/b", wasCloned := true, branch := "main" })) :=
  ⟨⟨rfl, rfl, by decide⟩,
    ⟨(c9_amended reqGh envMaster).1 envMaster.git "https://github.com/a/b" "/t/b" none none rfl,
     (c9_amended reqGh envMaster).2 { repoUrl := "https://github.com/a/b" }
       { targetPath := "/tmp/session-new-session/b", wasCloned := true, branch := "main" }
       rfl rfl (by decide) rfl rfl rfl (by rfl) rfl rfl rfl rfl rfl rfl⟩⟩

/-! ## Claim C10 -/

/-- C10 (counterexample): for a 60-character session name the branch's
session-name portion is NOT the cleaned name — `generateBranchName` truncates
the cleaned name to 50 characters, so the result differs from
`webedt/{cleaned-name}-{id}` even though the id is well within the stated
bound. -/
theorem c10_counterexample :
    (List.replicate 1 'x').length ≤ 91 ∧
    generateBranchName (List.replicate 60 'a') (List.replicate 1 'x') ≠
      "webedt/".data ++ cleanName (List.replicate 60 'a') ++ '-' :: List.replicate 1 'x' := by
  decide

/-- C10 (amended): for every session name and every generated id of length at
most 91, `generateBranchName` returns `webedt/` ++ a PREFIX of the cleaned
session name (cleaning = lowercase, non-alphanumeric runs collapsed to single
hyphens, leading/trailing hyphens stripped; the prefix is at most 50
characters, shorter only when needed to fit) ++ `-` ++ the id, and the total
length is at most 100 characters.  (Because a prefix of the cleaned name can
end in a hyphen, the portion is not always itself a cleaned name — see the
counterexample.) -/
theorem c10_amended (name id : List Char) (hid : id.length ≤ 91) :
    (∃ k, k ≤ 50 ∧
      generateBranchName name id = "webedt/".data ++ (cleanName name).take k ++ '-' :: id) ∧
    (generateBranchName name id).length ≤ 100 := by
  unfold generateBranchName cleanSessionName
  simp only [gt_iff_lt]
  split
  · next hlong =>
    refine ⟨⟨min (100 - ("webedt/--".data ++ id).length) 50, min_le_right _ _, ?_⟩, ?_⟩
    · rw [List.take_take]
    · have hlen9 : ("webedt/--".data ++ id).length = 9 + id.length := by
        simp [List.length_append]
        omega
      rw [hlen9]
      have h1 : (((cleanName name).take 50).take (100 - (9 + id.length))).length ≤
          100 - (9 + id.length) := List.length_take_le _ _
      simp only [List.length_append, List.length_cons, List.length_nil]
      omega
  · next hshort =>
    exact ⟨⟨50, le_refl 50, rfl⟩, by omega⟩

/-- Witness for `c10_amended` at a concrete name and id. -/
theorem c10_amended_witness :
    ("my branch".data.length ≤ 91) ∧
    ((∃ k, k ≤ 50 ∧
        generateBranchName "My Session: Test!".data "my branch".data =
          "webedt/".data ++ (cleanName "My Session: Test!".data).take k ++
            '-' :: "my branch".data) ∧
     (generateBranchName "My Session: Test!".data "my branch".data).length ≤ 100) :=
  ⟨by decide, c10_amended "My Session: Test!".data "my branch".data (by decide)⟩

end DockerClaudeCode
